import Mathlib

/-!
# Helix-Zero core engine: a shallow embedding in Lean 4

This file embeds the analysis core of the Helix-Zero RNAi candidate design
engine (`src/lib/engine.ts`, `src/lib/bloomFilter.ts`, `src/lib/genomeProcessor.ts`)
and proves or refutes the frozen specification claims about it.

Modelling conventions:
* Sequences are `List Char`; the JavaScript string operations `slice`,
  `includes`, `indexOf`-based counting are embedded as total functions on lists.
* JavaScript numbers are embedded as `ℚ` (exact rational arithmetic stands in
  for IEEE doubles; every constant in the source is a small decimal).
  32-bit integer operations (`Math.imul`, `| 0`, `<<`, `>>>`, `>>`, `^`) are
  embedded on `ℕ` as arithmetic modulo 2^32 on the unsigned representative;
  `Math.abs` of an int32 and arithmetic shift right get explicit helpers.
* The `riskFactors` / `safetyNotes` arrays of human-readable strings are not
  carried in the embedded records: no computation ever branches on them.
-/

set_option maxRecDepth 20000

namespace HelixZero

/-- `n % 2^32`: the unsigned representative of a JavaScript 32-bit value. -/
def m32 (n : ℕ) : ℕ := n % 4294967296

/-- `Math.abs` applied to the signed reading of a 32-bit value `u`. -/
def abs32 (u : ℕ) : ℕ := if u < 2147483648 then u else 4294967296 - u

/-- JavaScript signed shift right `>> k` (arithmetic shift) on the unsigned
representative of a 32-bit value, for `1 ≤ k ≤ 31`. -/
def sar32 (u k : ℕ) : ℕ :=
  if u < 2147483648 then u >>> k else (u >>> k) + (4294967296 - 2 ^ (32 - k))

/-- `Config.ALLOWED_NUCLEOTIDES` from `types.ts`. -/
def ALLOWED_NUCLEOTIDES : List Char := ['A', 'C', 'G', 'T', 'U', 'N']

/-- `IMMUNE_STIMULATING_MOTIFS` from `engine.ts`. -/
def IMMUNE_STIMULATING_MOTIFS : List (List Char) :=
  [['U','G','U','G','U'],
   ['G','U','C','C','U','U','C','A','A'],
   ['U','G','G','C'],
   ['G','C','C','A']]

/-- `PROBLEMATIC_POLY_RUNS` from `engine.ts`. -/
def PROBLEMATIC_POLY_RUNS : List (List Char) :=
  [['A','A','A','A'], ['U','U','U','U'], ['T','T','T','T'],
   ['G','G','G','G'], ['C','C','C','C']]

/-- Per-character complement used by `getReverseComplement` and
`analyzeFolding` (`engine.ts`): A↔T, G↔C, U→A, all else unchanged. -/
def complementChar (c : Char) : Char :=
  if c = 'A' then 'T'
  else if c = 'T' then 'A'
  else if c = 'G' then 'C'
  else if c = 'C' then 'G'
  else if c = 'U' then 'A'
  else c

/-- `getReverseComplement` (`engine.ts` line 120). -/
def getReverseComplement (s : List Char) : List Char :=
  (s.map complementChar).reverse

/-- `seq.slice(i, i + len)` for a list. -/
def sliceStr (s : List Char) (i len : ℕ) : List Char :=
  (s.drop i).take len

/-- Does `pat` occur in `s` starting at index `i` (full, exact occurrence)? -/
def matchAt (s pat : List Char) (i : ℕ) : Bool :=
  sliceStr s i pat.length == pat

/-- `String.prototype.includes` (true iff `pat` occurs somewhere in `s`). -/
def includesStr (s pat : List Char) : Bool :=
  (List.range (s.length + 1)).any (fun i => matchAt s pat i)

/-- `countOccurrences` (`engine.ts` line 150): number of (possibly
overlapping) start positions of `pat` in `s`.  The source advances
`indexOf(pattern, pos + 1)`, which enumerates exactly the distinct start
positions for a non-empty pattern. -/
def countOccurrences (s pat : List Char) : ℕ :=
  ((List.range (s.length + 1)).filter (fun i => matchAt s pat i)).length

/-- JavaScript `toUpperCase` on the ASCII alphabet used here. -/
def toUpperStr (s : List Char) : List Char := s.map Char.toUpper

/-- `seq.replace(/T/g, 'U')`. -/
def replaceTU (s : List Char) : List Char :=
  s.map (fun c => if c = 'T' then 'U' else c)

/-- All `k`-length windows of `s` (start positions `0 … |s| − k`). -/
def windowsK (s : List Char) (k : ℕ) : List (List Char) :=
  (List.range (s.length + 1 - k)).map (fun i => sliceStr s i k)

/-- Result record of `findPalindromes` (`engine.ts` line 133). -/
structure PalindromeResult where
  found : Bool
  length : ℕ
  position : ℤ
deriving DecidableEq, Repr

/-- `findPalindromes(seq, 4)` (`engine.ts` line 133): scan lengths
`min(|seq|, 12)` down to `4`, and for each length the start positions left to
right, returning the first window equal to its own reverse complement. -/
def findPalindromes (s : List Char) : PalindromeResult :=
  let lens := ((List.range (min s.length 12 + 1)).filter (fun l => 4 ≤ l)).reverse
  match lens.findSome? (fun len =>
      ((List.range (s.length + 1 - len)).find? (fun i =>
        let subseq := sliceStr s i len
        subseq == getReverseComplement subseq)).map (fun i => (len, i))) with
  | some (len, i) => ⟨true, len, (i : ℤ)⟩
  | none => ⟨false, 0, -1⟩

/-- `SafetyStatus` from `types.ts`. -/
inductive SafetyStatus where
  | CLEARED
  | WARNING_SEED
  | TOXIC
deriving DecidableEq, Repr

/-- `SafetyAnalysis` (`engine.ts` line 33), minus the two arrays of
human-readable strings (`riskFactors`, `safetyNotes`). -/
structure SafetyAnalysis where
  overallSafetyScore : ℚ
  isSafe : Bool
  status : SafetyStatus
  has15merMatch : Bool
  maxContiguousMatch : ℕ
  safetyMargin : ℤ
  seedSequence : List Char
  seedReverseComplement : List Char
  hasSeedMatch : Bool
  seedMatchCount : ℕ
  seedRiskScore : ℕ
  extendedSeed : List Char
  hasExtendedSeedMatch : Bool
  extendedSeedPartialMatches : ℕ
  isPalindrome : Bool
  palindromeLength : ℕ
  palindromePosition : ℤ
  palindromeRiskScore : ℕ
  hasCpGMotif : Bool
  cpgCount : ℕ
  hasPolyRun : Bool
  polyRunDetails : List (List Char)
  hasImmuneMotif : Bool
  immuneMotifs : List (List Char)
  biologicalRiskScore : ℕ
deriving DecidableEq, Repr

/-- Layer-1 max-contiguous-match search of `performSafetyAnalysis`
(`engine.ts` lines 207–219): for lengths 14 down to 4, stop at the first
length such that some window of `seq` of that length occurs in `offTargetSeq`;
0 if none. -/
def maxContigMatch (seq offTargetSeq : List Char) : ℕ :=
  match ((List.range' 4 11).reverse).find? (fun len =>
      (List.range (seq.length + 1 - len)).any
        (fun i => includesStr offTargetSeq (sliceStr seq i len))) with
  | some len => len
  | none => 0

/-- Seed risk tiers of `performSafetyAnalysis` (`engine.ts` lines 252–269). -/
def seedRiskOf (hasSeedMatch : Bool) (seedMatchCount : ℕ) : ℕ :=
  if hasSeedMatch then
    if 100 < seedMatchCount then 80
    else if 50 < seedMatchCount then 50
    else if 10 < seedMatchCount then 30
    else 15
  else 0

/-- Palindrome risk tiers of `performSafetyAnalysis`
(`engine.ts` lines 307–319). -/
def palindromeRiskOf (p : PalindromeResult) : ℕ :=
  if p.found then
    if 8 ≤ p.length then 60
    else if 6 ≤ p.length then 30
    else 10
  else 0

/-- Biological risk score of Layer 5 (`engine.ts` lines 369–372). -/
def biologicalRiskOf (hasCpG hasPoly hasImmune : Bool) : ℕ :=
  (if hasCpG then 20 else 0) + (if hasPoly then 25 else 0) +
    (if hasImmune then 30 else 0)

/-- Homology deduction of the exact-variant aggregate score
(`engine.ts` lines 386–392). -/
def homologyDeduction (maxContiguousMatch : ℕ) : ℚ :=
  if 14 ≤ maxContiguousMatch then 40
  else if 12 ≤ maxContiguousMatch then 20
  else if 10 ≤ maxContiguousMatch then 10
  else 0

/-- `Math.max(0, Math.min(100, x))`. -/
def clamp0100 (x : ℚ) : ℚ := max 0 (min 100 x)

/-- Layer-1 hard-gate test of `performSafetyAnalysis` (`engine.ts` lines
197–204): some 15-window of the candidate is in the exact 15-mer index. -/
def exactHas15mer (seq : List Char) (offTarget15mers : List (List Char)) : Bool :=
  (List.range (seq.length + 1 - 15)).any
    (fun i => offTarget15mers.contains (sliceStr seq i 15))

/-- CpG count shared by both analyzers (`engine.ts` lines 331, 1038). -/
def cpgCountOf (seq : List Char) : ℕ := countOccurrences seq ['C','G']

/-- Poly-run hits shared by both analyzers (`engine.ts` lines 342–347, 1040). -/
def polyRunsOf (seq : List Char) : List (List Char) :=
  PROBLEMATIC_POLY_RUNS.filter (fun run => includesStr seq run)

/-- Immune-motif hits shared by both analyzers (`engine.ts` lines
357–362, 1042–1044): the motif occurs as-is or after `T → U` replacement. -/
def immuneMotifsOf (seq : List Char) : List (List Char) :=
  IMMUNE_STIMULATING_MOTIFS.filter
    (fun motif => includesStr seq motif || includesStr (replaceTU seq) motif)

/-- Layer-5 biological risk of a candidate, shared by both analyzers. -/
def bioRiskOfSeq (seq : List Char) : ℕ :=
  biologicalRiskOf (decide (3 ≤ cpgCountOf seq)) (!(polyRunsOf seq).isEmpty)
    (!(immuneMotifsOf seq).isEmpty)

/-- Aggregate-score computation of `performSafetyAnalysis` (`engine.ts`
lines 379–404): 0 on a 15-mer hit, else 100 minus the homology, seed,
palindrome and biological deductions; clamped to [0, 100]. -/
def exactAggregate (has15 : Bool) (mc seedRisk palRisk bioRisk : ℕ) : ℚ :=
  clamp0100 (if has15 then 0
    else 100 - homologyDeduction mc - (seedRisk : ℚ) * (3/10)
      - (palRisk : ℚ) * (15/100) - (bioRisk : ℚ) * (1/10))

/-- Status computation of `performSafetyAnalysis` (`engine.ts` lines
406–422). -/
def exactStatus (has15 hasSeedMatch : Bool) (seedRisk : ℕ) (score : ℚ) :
    SafetyStatus :=
  if has15 then .TOXIC
  else if hasSeedMatch && decide (50 ≤ seedRisk) then .WARNING_SEED
  else if score < 80 then .WARNING_SEED
  else .CLEARED

/-- `performSafetyAnalysis` (`engine.ts` lines 181–464): the exact-index
five-layer safety firewall. -/
def performSafetyAnalysis (candidateSeq offTargetSeq : List Char)
    (offTarget15mers offTargetSeeds : List (List Char)) : SafetyAnalysis :=
  let seq := toUpperStr candidateSeq
  -- Layer 1: 15-mer exclusion firewall
  let has15merMatch := exactHas15mer seq offTarget15mers
  let maxContiguousMatch := maxContigMatch seq offTargetSeq
  let safetyMargin : ℤ := 15 - (maxContiguousMatch : ℤ)
  -- Layer 2: seed region (positions 2–8)
  let seedSequence := sliceStr seq 1 7
  let seedReverseComplement := getReverseComplement seedSequence
  let hasSeedMatch := offTargetSeeds.contains seedSequence ||
    offTargetSeeds.contains seedReverseComplement
  let seedMatchCount := countOccurrences offTargetSeq seedSequence +
    countOccurrences offTargetSeq seedReverseComplement
  let seedRiskScore := seedRiskOf hasSeedMatch seedMatchCount
  -- Layer 3: extended seed (positions 2–13)
  let extendedSeed := sliceStr seq 1 12
  let extendedSeedRC := getReverseComplement extendedSeed
  let hasExtendedSeedMatch := includesStr offTargetSeq extendedSeed ||
    includesStr offTargetSeq extendedSeedRC
  let extendedSeedPartialMatches :=
    if hasExtendedSeedMatch then
      countOccurrences offTargetSeq extendedSeed +
        countOccurrences offTargetSeq extendedSeedRC
    else 0
  -- Layer 4: palindromes
  let palindromeResult := findPalindromes seq
  let palindromeRiskScore := palindromeRiskOf palindromeResult
  -- Layer 5: biological exception rules
  let biologicalRiskScore := bioRiskOfSeq seq
  -- aggregate score
  let overallSafetyScore := exactAggregate has15merMatch maxContiguousMatch
    seedRiskScore palindromeRiskScore biologicalRiskScore
  -- status
  let status := exactStatus has15merMatch hasSeedMatch seedRiskScore
    overallSafetyScore
  let isSafe := !has15merMatch
  { overallSafetyScore := overallSafetyScore
    isSafe := isSafe
    status := status
    has15merMatch := has15merMatch
    maxContiguousMatch := maxContiguousMatch
    safetyMargin := safetyMargin
    seedSequence := seedSequence
    seedReverseComplement := seedReverseComplement
    hasSeedMatch := hasSeedMatch
    seedMatchCount := seedMatchCount
    seedRiskScore := seedRiskScore
    extendedSeed := extendedSeed
    hasExtendedSeedMatch := hasExtendedSeedMatch
    extendedSeedPartialMatches := extendedSeedPartialMatches
    isPalindrome := palindromeResult.found
    palindromeLength := palindromeResult.length
    palindromePosition := palindromeResult.position
    palindromeRiskScore := palindromeRiskScore
    hasCpGMotif := 3 ≤ cpgCountOf seq
    cpgCount := cpgCountOf seq
    hasPolyRun := !(polyRunsOf seq).isEmpty
    polyRunDetails := polyRunsOf seq
    hasImmuneMotif := !(immuneMotifsOf seq).isEmpty
    immuneMotifs := immuneMotifsOf seq
    biologicalRiskScore := biologicalRiskScore }

/-- `TargetSpecies` from `types.ts`. -/
inductive TargetSpecies where
  | LEPIDOPTERA
  | COLEOPTERA
  | GENERIC
deriving DecidableEq, Repr

/-- GC percentage `(#G + #C) / length × 100` (the `match(/[GC]/g)` count). -/
def gcPercent (s : List Char) : ℚ :=
  ((s.filter (fun c => c == 'G' || c == 'C')).length : ℚ) / (s.length : ℚ) * 100

/-- `extractFeatures` (`engine.ts` line 103): `[gc, startAU, endGC, noGGGG]`. -/
def extractFeatures (seq : List Char) : List ℚ :=
  let seqUpper := toUpperStr seq
  let gc := gcPercent seqUpper
  let startAU : ℚ := if seqUpper.getD 0 '?' ∈ (['A','T','U'] : List Char) then 1 else 0
  let endGC : ℚ := if seqUpper.getD (seqUpper.length - 1) '?' ∈ (['G','C'] : List Char) then 1 else 0
  let noGGGG : ℚ := if includesStr seqUpper ['G','G','G','G'] then 0 else 1
  [gc, startAU, endGC, noGGGG]

/-- `REYNOLDS_POSITION_WEIGHTS` (`engine.ts` line 481) as a function:
weight of nucleotide `c` at 1-indexed position `pos`; 0 for any pair not in
the table. -/
def reynoldsWeight (pos : ℕ) (c : Char) : ℤ :=
  if pos = 1 then (if c = 'G' ∨ c = 'C' then -2 else 0)
  else if pos = 2 then 0
  else if pos = 3 then
    (if c = 'A' then 3 else if c = 'T' ∨ c = 'U' then 1
     else if c = 'G' ∨ c = 'C' then -1 else 0)
  else if pos = 7 then
    (if c = 'A' then 1 else if c = 'G' ∨ c = 'C' then -1 else 0)
  else if pos = 10 then
    (if c = 'A' then 3 else if c = 'T' ∨ c = 'U' then 2
     else if c = 'G' ∨ c = 'C' then -2 else 0)
  else if pos = 13 then
    (if c = 'A' ∨ c = 'T' ∨ c = 'U' then -1 else if c = 'G' then -2
     else if c = 'C' then -1 else 0)
  else if pos = 19 then
    (if c = 'A' then 3 else if c = 'T' ∨ c = 'U' then 2
     else if c = 'G' ∨ c = 'C' then -3 else 0)
  else 0

/-- `calculatePositionScore` (`engine.ts` line 537): sum the Reynolds
weights over the table's positions (`Object.entries` yields the integer-like
keys 1, 2, 3, 7, 10, 13, 19 in ascending order), guarding `pos < seq.length`
with `pos` 0-indexed. -/
def calculatePositionScore (seq : List Char) : ℤ :=
  (([1, 2, 3, 7, 10, 13, 19] : List ℕ).map (fun p =>
    if p - 1 < seq.length then reynoldsWeight p (seq.getD (p - 1) '?') else 0)).sum

/-- Free-energy contribution of one nucleotide (`energyMap` in
`calculateAsymmetry`, `engine.ts` line 505); the `|| -2.5` default applies to
characters outside the map. -/
def energyOf (c : Char) : ℚ :=
  if c = 'A' ∨ c = 'T' ∨ c = 'U' then -2
  else if c = 'G' ∨ c = 'C' then -3
  else -5/2

/-- `calculateAsymmetry` (`engine.ts` line 502): 3′-end energy (last 4)
minus 5′-end energy (first 4). -/
def calculateAsymmetry (seq : List Char) : ℚ :=
  let fivePrimeEnergy := ((seq.take 4).map energyOf).sum
  let threePrimeEnergy := ((seq.drop (seq.length - 4)).map energyOf).sum
  threePrimeEnergy - fivePrimeEnergy

/-- `countAU(seq, start, end)` (`engine.ts` line 526). -/
def countAU (seq : List Char) (start stop : ℕ) : ℕ :=
  (((seq.drop start).take (stop - start)).filter
    (fun c => c == 'A' || c == 'T' || c == 'U')).length

/-- `DINUCLEOTIDE_BONUSES` (`engine.ts` line 492) as a function; 0 for any
dinucleotide not in the table (`|| 0`). -/
def dinucleotideBonus (di : List Char) : ℤ :=
  if di = ['A','A'] then 2
  else if di = ['A','U'] then 2
  else if di = ['U','A'] then 2
  else if di = ['U','U'] then 1
  else if di = ['T','T'] then 1
  else if di = ['A','T'] then 2
  else if di = ['T','A'] then 2
  else if di = ['G','C'] then -1
  else if di = ['C','G'] then -2
  else if di = ['G','G'] then -3
  else if di = ['C','C'] then -1
  else 0

/-- `evaluateDinucleotides` (`engine.ts` line 588): sum the dinucleotide
bonuses at key positions `0`, `length − 3`, `length − 2` (as JavaScript
integers, which can go negative for short inputs), guarded by
`0 ≤ pos < length − 1`. -/
def evaluateDinucleotides (seq : List Char) : ℤ :=
  (([0, (seq.length : ℤ) - 3, (seq.length : ℤ) - 2] : List ℤ).map (fun pos =>
    if 0 ≤ pos ∧ pos < (seq.length : ℤ) - 1 then
      dinucleotideBonus (sliceStr seq pos.toNat 2)
    else 0)).sum

/-- Maximal single-character runs of a list: `(char, run length)` pairs, in
order, matching the regex `/(.)\1{3,}/g` pieces once filtered by length. -/
def maxRunsFrom : Char → ℕ → List Char → List (Char × ℕ)
  | c, n, [] => [(c, n)]
  | c, n, d :: rest =>
    if d = c then maxRunsFrom c (n + 1) rest
    else (c, n) :: maxRunsFrom d 1 rest

/-- All maximal runs of equal characters in a list. -/
def maxRuns : List Char → List (Char × ℕ)
  | [] => []
  | c :: rest => maxRunsFrom c 1 rest

/-- `penalizeRepeats` (`engine.ts` line 554): tandem dinucleotide and
trinucleotide repeats plus low-complexity runs, capped at 20. -/
def penalizeRepeats (seq : List Char) : ℕ :=
  let diPenalty := ((List.range (seq.length - 3)).map (fun i =>
    (if sliceStr seq (i + 2) 2 == sliceStr seq i 2 then 2 else 0) +
    (if sliceStr seq (i + 2) 4 == sliceStr seq i 2 ++ sliceStr seq i 2 then 5 else 0))).sum
  let triPenalty := ((List.range (seq.length - 5)).map (fun i =>
    if sliceStr seq (i + 3) 3 == sliceStr seq i 3 then 3 else 0)).sum
  let runPenalty := (((maxRuns seq).filter (fun p => 4 ≤ p.2)).map
    (fun p => p.2 * 2)).sum
  min (diPenalty + triPenalty + runPenalty) 20

/-- The deterministic 32-bit rolling hash of step 12 of `predictEfficacy`
(`engine.ts` lines 721–724).  The source computes
`hash = ((hash << 5) - hash + code * (i + 1)) | 0`; on the unsigned
representative modulo 2^32 this is `hash * 31 + code * (i + 1)`. -/
def seqHash (seq : List Char) : ℕ :=
  seq.enum.foldl (fun h p => (h * 31 + p.2.toNat * (p.1 + 1)) % 4294967296) 0

/-- `predictEfficacy` (`engine.ts` lines 604–732): the twelve-rule efficacy
score, clamped to [35, 95]. -/
def predictEfficacy (seq0 : List Char) (species : TargetSpecies)
    (foldRisk : ℚ) : ℚ :=
  let seqUpper := toUpperStr seq0
  let gc := gcPercent seqUpper
  let score : ℚ := 50
  -- 1. GC content
  let score := score +
    (if 30 ≤ gc ∧ gc ≤ 52 then 15 - |gc - 41| * (1/2)
     else if 25 ≤ gc ∧ gc ≤ 60 then 5
     else if gc < 25 then -((25 - gc) * (1/2))
     else -((gc - 60) * (4/5)))
  -- 2. position-specific scoring
  let score := score + (calculatePositionScore seqUpper : ℚ)
  -- 3. thermodynamic asymmetry
  let asymmetry := calculateAsymmetry seqUpper
  let score := score +
    (if 2 < asymmetry then 8 else if 0 < asymmetry then 4
     else if asymmetry < -2 then -6 else 0)
  -- 4. A/U content at positions 15–19
  let auCount15to19 := countAU seqUpper 14 19
  let score := score +
    (if 4 ≤ auCount15to19 then 6 else if 3 ≤ auCount15to19 then 3
     else if auCount15to19 ≤ 1 then -5 else 0)
  -- 5. 5′-end A/U
  let score := score +
    (if seqUpper.getD 0 '?' ∈ (['A','T','U'] : List Char) then 5 else -3)
  -- 6. position 19
  let score := score +
    (if 19 ≤ seqUpper.length then
      (let pos19 := seqUpper.getD 18 '?'
       if pos19 ∈ (['A','T','U'] : List Char) then 4
       else if pos19 = 'G' then -5 else -3)
     else 0)
  -- 7. dinucleotides
  let score := score + (evaluateDinucleotides seqUpper : ℚ)
  -- 8. repeats
  let score := score - (penalizeRepeats seqUpper : ℚ)
  -- 9. G-quadruplex
  let score := score - (if includesStr seqUpper ['G','G','G','G'] then 10 else 0)
  let score := score - (if includesStr seqUpper ['G','G','G'] then 3 else 0)
  -- 10. fold penalty
  let score := score - (if 0 < foldRisk then foldRisk * (1/10) else 0)
  -- 11. species adjustment
  let score := score +
    (if species = .LEPIDOPTERA ∨ species = .COLEOPTERA then
      (let gc9to14 := (((seqUpper.drop 8).take 6).filter
        (fun c => c == 'G' || c == 'C')).length
       if 4 ≤ gc9to14 then 4 else if gc9to14 ≤ 1 then -2 else 0)
     else 0)
  -- 12. deterministic variance
  let variance := ((abs32 (seqHash seqUpper) % 100 : ℚ) / 100 - 1/2) * 4
  let score := score + variance
  max 35 (min 95 score)

/-- `analyzeFolding` (`engine.ts` line 1277): 100 if the first 4 bytes of
the candidate equal the first 4 bytes of its reverse complement, else 0. -/
def analyzeFolding (seq : List Char) : ℚ :=
  let revComp := getReverseComplement seq
  if seq.take 4 == revComp.take 4 then 100 else 0

/-- `scoreDeliveryCompatibility(seq, 'spc')` (`engine.ts` line 1301): the
`spc` system has length range [21, 25] and GC range [35, 55]. -/
def scoreDeliveryCompatibility (seq : List Char) : ℚ :=
  let gc := gcPercent seq
  let len := seq.length
  let score : ℚ := 100
  let score := if len < 21 ∨ 25 < len then score - 30 else score
  let score := if gc < 35 ∨ 55 < gc then score - |gc - 45| else score
  max 0 score

/-- `DeepTechSearch` (`engine.ts` line 743): the exact-index search engine.
The constructor stores the upper-cased non-target sequence and indexes every
15-mer and 7-mer window **without any validity filter**. -/
structure DeepTechSearch where
  offTargetSeq : List Char
  offTarget15mers : List (List Char)
  offTargetSeeds : List (List Char)
deriving Repr

/-- The `DeepTechSearch` constructor (`engine.ts` lines 748–764). -/
def deepTechInit (offTargetSeq0 : List Char) : DeepTechSearch :=
  let offTargetSeq := toUpperStr offTargetSeq0
  { offTargetSeq := offTargetSeq
    offTarget15mers := windowsK offTargetSeq 15
    offTargetSeeds := windowsK offTargetSeq 7 }

/-- Return type of both `checkSafety` methods (`engine.ts` lines 803, 974). -/
structure CheckSafetyResult where
  isSafe : Bool
  matchLength : ℕ
  status : SafetyStatus
  safetyScore : ℚ
  safetyAnalysis : SafetyAnalysis
deriving DecidableEq, Repr

/-- `DeepTechSearch.checkSafety` (`engine.ts` lines 803–819). -/
def DeepTechSearch.checkSafety (ds : DeepTechSearch)
    (candidateSeq : List Char) : CheckSafetyResult :=
  let analysis := performSafetyAnalysis candidateSeq ds.offTargetSeq
    ds.offTarget15mers ds.offTargetSeeds
  { isSafe := analysis.isSafe
    matchLength := analysis.maxContiguousMatch
    status := analysis.status
    safetyScore := analysis.overallSafetyScore
    safetyAnalysis := analysis }

/-- `Candidate` from `types.ts`, minus the two arrays of human-readable
strings (`riskFactors`, `safetyNotes`) and the unused optional
`thermodynamicScore`. -/
structure Candidate where
  sequence : List Char
  position : ℕ
  efficiency : ℚ
  foldRisk : ℚ
  status : SafetyStatus
  gcContent : ℚ
  matchLength : ℕ
  deliveryCompatibility : ℚ
  safetyScore : ℚ
  seedSequence : List Char
  hasSeedMatch : Bool
  seedMatchCount : ℕ
  hasPalindrome : Bool
  palindromeLength : ℕ
  hasCpGMotif : Bool
  hasPolyRun : Bool
deriving DecidableEq, Repr

instance : Inhabited Candidate :=
  ⟨⟨[], 0, 0, 0, .CLEARED, 0, 0, 0, 0, [], false, 0, false, 0, false, false⟩⟩

/-- `RejectionMetrics` from `types.ts`. -/
structure RejectionMetrics where
  safety : ℕ
  folding : ℕ
  efficacy : ℕ
  dataQuality : ℕ
deriving DecidableEq, Repr

/-- Result record of `runPipeline` / `runPipelineWithBloom`. -/
structure PipelineResult where
  candidates : List Candidate
  metrics : RejectionMetrics
deriving DecidableEq, Repr

/-- Accumulator state of the pipeline scan loop. -/
structure PipeState where
  candidates : List Candidate
  metrics : RejectionMetrics
deriving Repr

/-- One iteration of the scan loop shared verbatim by `runPipeline`
(`engine.ts` lines 1361–1436) and `runPipelineWithBloom` (lines 1195–1261):
data-quality filter, safety filter (toxicity, then score < 75), folding
filter, efficacy filter, then emission of the candidate record.  The only
difference between the two source loops is the engine whose `checkSafety` is
called, abstracted here as `check`.  (The exact loop spells the score filter
`safetyAnalysis.overallSafetyScore < 75` and the Bloom loop
`safetyResult.safetyScore < 75`; both `checkSafety` methods set those two
fields to the same value, as embedded above.) -/
def pipeStep (pestSeq : List Char) (check : List Char → CheckSafetyResult)
    (threshold : ℚ) (species : TargetSpecies) (st : PipeState) (i : ℕ) :
    PipeState :=
  let seq := sliceStr pestSeq i 21
  if 0 < (seq.filter (fun c => !(ALLOWED_NUCLEOTIDES.contains c))).length then
    { st with metrics := { st.metrics with dataQuality := st.metrics.dataQuality + 1 } }
  else
    let safetyResult := check seq
    if !safetyResult.isSafe then
      { st with metrics := { st.metrics with safety := st.metrics.safety + 1 } }
    else if safetyResult.safetyAnalysis.overallSafetyScore < 75 then
      { st with metrics := { st.metrics with safety := st.metrics.safety + 1 } }
    else
      let foldRisk := analyzeFolding seq
      if 50 < foldRisk then
        { st with metrics := { st.metrics with folding := st.metrics.folding + 1 } }
      else
        let features := extractFeatures seq
        let efficiency := predictEfficacy seq species foldRisk
        if efficiency < threshold then
          { st with metrics := { st.metrics with efficacy := st.metrics.efficacy + 1 } }
        else
          let analysis := safetyResult.safetyAnalysis
          { st with candidates := st.candidates ++
              [{ sequence := seq
                 position := i
                 efficiency := efficiency
                 foldRisk := foldRisk
                 status := safetyResult.status
                 gcContent := (features.getD 0 0)
                 matchLength := safetyResult.matchLength
                 deliveryCompatibility := scoreDeliveryCompatibility seq
                 safetyScore := analysis.overallSafetyScore
                 seedSequence := analysis.seedSequence
                 hasSeedMatch := analysis.hasSeedMatch
                 seedMatchCount := analysis.seedMatchCount
                 hasPalindrome := analysis.isPalindrome
                 palindromeLength := analysis.palindromeLength
                 hasCpGMotif := analysis.hasCpGMotif
                 hasPolyRun := analysis.hasPolyRun }] }

/-- The scan loop shared by both pipelines: scan limit
`min(|target| − 21, 5000)` (a JavaScript number, possibly negative), with an
early empty return when it is ≤ 0, else the loop over windows
`0 … scanLimit − 1`. -/
def pipelineCore (pestSeq : List Char) (check : List Char → CheckSafetyResult)
    (threshold : ℚ) (species : TargetSpecies) : PipelineResult :=
  let scanLimit : ℤ := min ((pestSeq.length : ℤ) - 21) 5000
  if scanLimit ≤ 0 then ⟨[], ⟨0, 0, 0, 0⟩⟩
  else
    let final := (List.range scanLimit.toNat).foldl
      (pipeStep pestSeq check threshold species) ⟨[], ⟨0, 0, 0, 0⟩⟩
    ⟨final.candidates, final.metrics⟩

/-- `runPipeline` (`engine.ts` lines 1345–1439): the exact-index pipeline.
The progress callback has no effect on the result and is omitted. -/
def runPipeline (pestSeq : List Char) (searchEngine : DeepTechSearch)
    (threshold : ℚ) (species : TargetSpecies) : PipelineResult :=
  pipelineCore pestSeq searchEngine.checkSafety threshold species

/-!
## Bloom filters (`bloomFilter.ts`)

The filter state is `(size, hashCount, words, itemCount)`; `words j` is the
`Uint32Array` word at index `j`.  The constructor's sizing formulas
(`-n·ln(p)/ln(2)²` and `(m/n)·ln 2`, computed with `Math.log`) involve
transcendental floating-point values and only fix the two parameters
`size` and `hashCount`; the claims about `add`/`contains` hold for every
value of these parameters, so the state is parametrised by them.
-/

/-- Bit-set Bloom filter state (`bloomFilter.ts` class `BloomFilter`). -/
structure BloomFilter where
  size : ℕ
  hashCount : ℕ
  words : ℕ → ℕ
  itemCount : ℕ

/-- The MurmurHash3-inspired `BloomFilter.hash` (`bloomFilter.ts` lines
54–77), on unsigned 32-bit representatives.  `Math.imul` is multiplication
mod 2^32; `(x << k) | (x >>> 32−k)` is a rotation; the `+ 0xe6546b64` result
is reduced mod 2^32 at its next bitwise use; the final value is passed
through `Math.abs` of its signed reading, then `% size`. -/
def bfHash (s : List Char) (seed : ℕ) (size : ℕ) : ℕ :=
  let h1 := s.foldl (fun h1 c =>
    let k1 := c.toNat
    let k1 := m32 (k1 * 0xcc9e2d51)
    let k1 := (m32 (k1 <<< 15)) ||| (k1 >>> 17)
    let k1 := m32 (k1 * 0x1b873593)
    let h1 := h1 ^^^ k1
    let h1 := (m32 (h1 <<< 13)) ||| (h1 >>> 19)
    m32 (h1 * 5 + 0xe6546b64)) (m32 seed)
  let h1 := h1 ^^^ (m32 s.length)
  let h1 := h1 ^^^ (h1 >>> 16)
  let h1 := m32 (h1 * 0x85ebca6b)
  let h1 := h1 ^^^ (h1 >>> 13)
  let h1 := m32 (h1 * 0xc2b2ae35)
  let h1 := h1 ^^^ (h1 >>> 16)
  abs32 h1 % size

/-- `BloomFilter.getHashValues` (`bloomFilter.ts` lines 83–92): double
hashing `h₁ + i·h₂ mod size` for `i < hashCount` (both summands are
non-negative, so the source's `Math.abs` is the identity). -/
def BloomFilter.getHashValues (bf : BloomFilter) (item : List Char) : List ℕ :=
  let h1 := bfHash item 0 bf.size
  let h2 := bfHash item h1 bf.size
  (List.range bf.hashCount).map (fun i => (h1 + i * h2) % bf.size)

/-- `BloomFilter.add` (`bloomFilter.ts` lines 97–105): set bit
`hash mod 32` of word `⌊hash / 32⌋` for every hash value. -/
def BloomFilter.add (bf : BloomFilter) (item : List Char) : BloomFilter :=
  { bf with
    words := (bf.getHashValues item).foldl (fun w h => fun j =>
      if j = h / 32 then w j ||| (1 <<< (h % 32)) else w j) bf.words
    itemCount := bf.itemCount + 1 }

/-- `BloomFilter.contains` (`bloomFilter.ts` lines 111–121): true iff every
hash position's bit is set. -/
def BloomFilter.contains (bf : BloomFilter) (item : List Char) : Bool :=
  (bf.getHashValues item).all (fun h => bf.words (h / 32) &&& (1 <<< (h % 32)) != 0)

/-- A freshly constructed filter: all bits clear. -/
def BloomFilter.empty (size hashCount : ℕ) : BloomFilter :=
  ⟨size, hashCount, fun _ => 0, 0⟩

/-- Fold `add` over a list of items. -/
def BloomFilter.addMany (bf : BloomFilter) (items : List (List Char)) :
    BloomFilter :=
  items.foldl BloomFilter.add bf

/-- Counting Bloom filter state (`bloomFilter.ts` class
`CountingBloomFilter`); `counters h` is the saturating 8-bit counter at
position `h`. -/
structure CountingBloomFilter where
  size : ℕ
  hashCount : ℕ
  counters : ℕ → ℕ

/-- `CountingBloomFilter.hash` (`bloomFilter.ts` lines 180–187).  Note the
source uses the **signed** shift `h >> 15` here. -/
def cbHash (s : List Char) (seed : ℕ) (size : ℕ) : ℕ :=
  let h := s.foldl (fun h c =>
    let h := m32 ((h ^^^ c.toNat) * 0x5bd1e995)
    h ^^^ sar32 h 15) (m32 seed)
  abs32 h % size

/-- `CountingBloomFilter.getHashValues` (`bloomFilter.ts` lines 189–197). -/
def CountingBloomFilter.getHashValues (cf : CountingBloomFilter)
    (item : List Char) : List ℕ :=
  let h1 := cbHash item 0x12345678 cf.size
  let h2 := cbHash item 0x87654321 cf.size
  (List.range cf.hashCount).map (fun i => (h1 + i * h2) % cf.size)

/-- `CountingBloomFilter.add` (`bloomFilter.ts` lines 199–205): increment
each hashed counter, saturating at 255. -/
def CountingBloomFilter.add (cf : CountingBloomFilter) (item : List Char) :
    CountingBloomFilter :=
  { cf with
    counters := (cf.getHashValues item).foldl (fun cnt h => fun j =>
      if j = h then (if cnt j < 255 then cnt j + 1 else cnt j) else cnt j)
      cf.counters }

/-- `CountingBloomFilter.getCount` (`bloomFilter.ts` lines 211–217):
minimum counter over the hash positions, starting from 255. -/
def CountingBloomFilter.getCount (cf : CountingBloomFilter)
    (item : List Char) : ℕ :=
  (cf.getHashValues item).foldl (fun m h => min m (cf.counters h)) 255

/-- A freshly constructed counting filter: all counters zero. -/
def CountingBloomFilter.empty (size hashCount : ℕ) : CountingBloomFilter :=
  ⟨size, hashCount, fun _ => 0⟩

/-- `LargeGenomeIndex` (`engine.ts` line 831). -/
structure LargeGenomeIndex where
  filter15mer : BloomFilter
  filter7mer : CountingBloomFilter
  sequenceLength : ℕ
  gcContent : ℚ
  sampleRegions : List (List Char)
  samplePositions : List ℕ

/-- `BloomBasedSearch` (`engine.ts` line 841): index plus the optional
retained raw non-target sequence. -/
structure BloomBasedSearch where
  index : LargeGenomeIndex
  rawSequence : Option (List Char)

/-- `BloomBasedSearch.hasPotential15merMatch` (`engine.ts` lines 937–945). -/
def BloomBasedSearch.hasPotential15merMatch (bs : BloomBasedSearch)
    (candidate : List Char) : Bool :=
  (List.range (candidate.length + 1 - 15)).any
    (fun i => bs.index.filter15mer.contains (sliceStr candidate i 15))

/-- `BloomBasedSearch.verify15merInSamples` (`engine.ts` lines 951–961). -/
def BloomBasedSearch.verify15merInSamples (bs : BloomBasedSearch)
    (candidate : List Char) : Bool :=
  bs.index.sampleRegions.any (fun sample =>
    (List.range (candidate.length + 1 - 15)).any
      (fun i => includesStr sample (sliceStr candidate i 15)))

/-- `BloomBasedSearch.getSeedMatchCount` (`engine.ts` lines 966–968). -/
def BloomBasedSearch.getSeedMatchCount (bs : BloomBasedSearch)
    (seed : List Char) : ℕ :=
  bs.index.filter7mer.getCount seed

/-- The match-length estimate of `BloomBasedSearch.checkSafety`
(`engine.ts` lines 1052–1076): 15 when confirmed, 14 on an unconfirmed
Bloom positive, else the longest length 14 down to 8 of a candidate window
found in some sample region (0 if none). -/
def bloomMaxContig (bs : BloomBasedSearch) (seq : List Char)
    (confirmed15merMatch has15merMatch : Bool) : ℕ :=
  if confirmed15merMatch then 15
  else if has15merMatch then 14
  else
    match ((List.range' 8 7).reverse).find? (fun len =>
        bs.index.sampleRegions.any (fun sample =>
          (List.range (seq.length + 1 - len)).any
            (fun i => includesStr sample (sliceStr seq i len)))) with
    | some len => len
    | none => 0

/-- The confirmation step of Layer 1 of `BloomBasedSearch.checkSafety`
(`engine.ts` lines 989–1002): on a Bloom positive, verify in the sample
regions, then (when retained) by exact substring search in the raw
sequence. -/
def BloomBasedSearch.confirmed15mer (bs : BloomBasedSearch)
    (seq : List Char) : Bool :=
  if bs.hasPotential15merMatch seq then
    if bs.verify15merInSamples seq then true
    else
      match bs.rawSequence with
      | some raw =>
        (List.range (seq.length + 1 - 15)).any
          (fun i => includesStr raw (sliceStr seq i 15))
      | none => false
  else false

/-- Layer-2 seed count of `BloomBasedSearch.checkSafety` (`engine.ts`
line 1007): counting-filter estimates for the seed and its reverse
complement. -/
def BloomBasedSearch.seedCountOf (bs : BloomBasedSearch)
    (seq : List Char) : ℕ :=
  bs.getSeedMatchCount (sliceStr seq 1 7) +
    bs.getSeedMatchCount (getReverseComplement (sliceStr seq 1 7))

/-- Seed-risk tiers of `BloomBasedSearch.checkSafety` (`engine.ts` lines
1010–1024); `hasSeedMatch` is `0 < seedCount`. -/
def bloomSeedRisk (seedCount : ℕ) : ℕ :=
  if 0 < seedCount then
    if 100 < seedCount then 80
    else if 50 < seedCount then 50
    else if 10 < seedCount then 30
    else 15
  else 0

/-- Palindrome risk of `BloomBasedSearch.checkSafety` (`engine.ts` lines
1030–1035): only lengths ≥ 6 are scored. -/
def bloomPalinRisk (p : PalindromeResult) : ℕ :=
  if p.found && decide (6 ≤ p.length) then
    (if 8 ≤ p.length then 60 else 30)
  else 0

/-- Aggregate-score computation of `BloomBasedSearch.checkSafety`
(`engine.ts` lines 1078–1100): 0 on a confirmed match (the later
deductions only push the value further below the clamp), −30 on an
unconfirmed Bloom positive, −20 for homology ≥ 12 (when unconfirmed) else
−10 for ≥ 10, then the seed, palindrome and biological deductions;
clamped to [0, 100]. -/
def bloomAggregate (confirmed has15 : Bool) (mc seedRisk palRisk bioRisk : ℕ) :
    ℚ :=
  let score0 : ℚ := if confirmed then 0 else if has15 then 100 - 30 else 100
  let score1 :=
    if 12 ≤ mc ∧ confirmed = false then score0 - 20
    else if 10 ≤ mc then score0 - 10
    else score0
  clamp0100 (score1 - (seedRisk : ℚ) * (3/10) - (palRisk : ℚ) * (15/100)
    - (bioRisk : ℚ) * (1/10))

/-- Status computation of `BloomBasedSearch.checkSafety` (`engine.ts`
lines 1102–1115); unlike the exact variant there is **no** branch on the
aggregate score. -/
def bloomStatusOf (confirmed hasSeedMatch : Bool) (seedRisk : ℕ) :
    SafetyStatus :=
  if confirmed then .TOXIC
  else if hasSeedMatch && decide (50 ≤ seedRisk) then .WARNING_SEED
  else .CLEARED

/-- `BloomBasedSearch.checkSafety` (`engine.ts` lines 974–1154): the
probabilistic five-layer safety check. -/
def BloomBasedSearch.checkSafety (bs : BloomBasedSearch)
    (candidateSeq : List Char) : CheckSafetyResult :=
  let seq := toUpperStr candidateSeq
  -- Layer 1: 15-mer check
  let has15merMatch := bs.hasPotential15merMatch seq
  let confirmed15merMatch := bs.confirmed15mer seq
  -- Layer 2: seed region
  let seedSequence := sliceStr seq 1 7
  let seedRC := getReverseComplement seedSequence
  let seedCount := bs.seedCountOf seq
  let hasSeedMatch := 0 < seedCount
  let seedRiskScore := bloomSeedRisk seedCount
  -- Layer 3: palindrome check
  let palindromeResult := findPalindromes seq
  let palindromeRiskScore := bloomPalinRisk palindromeResult
  -- Layer 4: biological exceptions
  let biologicalRiskScore := bioRiskOfSeq seq
  -- match length estimate
  let maxContiguousMatch := bloomMaxContig bs seq confirmed15merMatch has15merMatch
  -- overall safety score
  let overallSafetyScore := bloomAggregate confirmed15merMatch has15merMatch
    maxContiguousMatch seedRiskScore palindromeRiskScore biologicalRiskScore
  -- status
  let status := bloomStatusOf confirmed15merMatch hasSeedMatch seedRiskScore
  let isSafe := !confirmed15merMatch
  let analysis : SafetyAnalysis :=
    { overallSafetyScore := overallSafetyScore
      isSafe := isSafe
      status := status
      has15merMatch := confirmed15merMatch
      maxContiguousMatch := maxContiguousMatch
      safetyMargin := 15 - (maxContiguousMatch : ℤ)
      seedSequence := seedSequence
      seedReverseComplement := seedRC
      hasSeedMatch := hasSeedMatch
      seedMatchCount := seedCount
      seedRiskScore := seedRiskScore
      extendedSeed := sliceStr seq 1 12
      hasExtendedSeedMatch := false
      extendedSeedPartialMatches := 0
      isPalindrome := palindromeResult.found
      palindromeLength := palindromeResult.length
      palindromePosition := palindromeResult.position
      palindromeRiskScore := palindromeRiskScore
      hasCpGMotif := 3 ≤ cpgCountOf seq
      cpgCount := cpgCountOf seq
      hasPolyRun := !(polyRunsOf seq).isEmpty
      polyRunDetails := polyRunsOf seq
      hasImmuneMotif := !(immuneMotifsOf seq).isEmpty
      immuneMotifs := immuneMotifsOf seq
      biologicalRiskScore := biologicalRiskScore }
  { isSafe := isSafe
    matchLength := maxContiguousMatch
    status := status
    safetyScore := overallSafetyScore
    safetyAnalysis := analysis }

/-- `runPipelineWithBloom` (`engine.ts` lines 1179–1264): identical scan
loop to `runPipeline`, driven by the Bloom-based engine; the progress
callback and the cooperative yields have no effect on the result. -/
def runPipelineWithBloom (pestSeq : List Char) (searchEngine : BloomBasedSearch)
    (threshold : ℚ) (species : TargetSpecies) : PipelineResult :=
  pipelineCore pestSeq searchEngine.checkSafety threshold species

/-!
## Validators (`genomeProcessor.ts` line 406, `engine.ts` line 1449)
-/

/-- `isValidKmer` (`genomeProcessor.ts` line 208 and `engine.ts` line 1166):
every character is one of A, T, G, C, U. -/
def isValidKmer (kmer : List Char) : Bool :=
  kmer.all (fun c => c == 'A' || c == 'T' || c == 'G' || c == 'C' || c == 'U')

/-- `validateSequence` from `genomeProcessor.ts` (lines 406–459) with its
default `maxSizeMB = 500`, as the boolean `valid` field: rejects empty input,
`length/(1024·1024) > 500`, `length < 100`, or an invalid character among the
**first 1,000,000** characters (the scan loop runs to
`Math.min(length, 1000000)`).  The N-content warning does not affect
validity. -/
def gpValidateSequence (s : List Char) : Bool :=
  if s.isEmpty then false
  else if (500 : ℚ) < (s.length : ℚ) / (1024 * 1024) then false
  else if s.length < 100 then false
  else if (s.take 1000000).any (fun c => !(ALLOWED_NUCLEOTIDES.contains c)) then false
  else true

/-- `validateSequence` from `engine.ts` (lines 1449–1468), as the boolean
`valid` field: rejects empty input, `length > 500,000,000`, `length < 100`,
or any character whose upper-cased form is outside
`ALLOWED_NUCLEOTIDES`. -/
def engineValidateSequence (s : List Char) : Bool :=
  if s.isEmpty then false
  else if 500000000 < s.length then false
  else if s.length < 100 then false
  else if s.any (fun c => !(ALLOWED_NUCLEOTIDES.contains c.toUpper)) then false
  else true

/-!
## Indexer insertion traces

`buildGenomeIndex` (`genomeProcessor.ts` lines 101–203) and
`BloomBasedSearch.buildIndex` (`engine.ts` lines 850–932) insert k-mers into
Bloom filters chunk by chunk.  The filters that result are obtained by
folding `add` over the insertion sequence; the sizing of the fresh filters
uses floating-point logarithms and is left parametric.  For the claims about
*which* k-mers are inserted, the insertion traces below replicate the chunk
loops exactly.
-/

/-- The k-mers of length `k` inserted from one chunk: offsets
`i < effectiveLength` with `i + k ≤ |chunk|`, filtered by `isValidKmer`
(the `if (isValidKmer(kmer)) filter.add(kmer)` guard). -/
def chunkInsertions (chunk : List Char) (effectiveLength k : ℕ) :
    List (List Char) :=
  ((List.range effectiveLength).filter (fun i => i + k ≤ chunk.length)).filterMap
    (fun i =>
      let kmer := sliceStr chunk i k
      if isValidKmer kmer then some kmer else none)

/-- The 15-mer and 7-mer insertion traces of `buildGenomeIndex`
(`genomeProcessor.ts` lines 130–178): chunks start at multiples of
`chunkSize`, extend to `min(start + chunkSize + overlapSize, length)`, and
the effective length is the full chunk length on the last chunk
(`end ≥ length`), else `chunkSize`. -/
def buildGenomeIndexTrace (genome : List Char) (chunkSize overlapSize : ℕ) :
    List (List Char) × List (List Char) :=
  let numChunks := (genome.length + chunkSize - 1) / chunkSize
  let chunks := (List.range numChunks).map (fun cidx =>
    let start := cidx * chunkSize
    let stop := min (start + chunkSize + overlapSize) genome.length
    let chunk := sliceStr genome start (stop - start)
    let effectiveLength := if genome.length ≤ stop then chunk.length else chunkSize
    (chunk, effectiveLength))
  (chunks.flatMap (fun p => chunkInsertions p.1 p.2 15),
   chunks.flatMap (fun p => chunkInsertions p.1 p.2 7))

/-- The 15-mer and 7-mer insertion traces of `BloomBasedSearch.buildIndex`
(`engine.ts` lines 875–917): chunk size 1,000,000 with a 50-character
overlap; the effective length is the full chunk length on the last chunk
index, else the chunk size. -/
def bloomBuildIndexTrace (genome : List Char) : List (List Char) × List (List Char) :=
  let chunkSize := 1000000
  let totalChunks := (genome.length + chunkSize - 1) / chunkSize
  let chunks := (List.range totalChunks).map (fun cidx =>
    let start := cidx * chunkSize
    let stop := min (start + chunkSize + 50) genome.length
    let chunk := sliceStr genome start (stop - start)
    let effectiveLength := if cidx = totalChunks - 1 then chunk.length else chunkSize
    (chunk, effectiveLength))
  (chunks.flatMap (fun p => chunkInsertions p.1 p.2 15),
   chunks.flatMap (fun p => chunkInsertions p.1 p.2 7))

/-!
## Spec-side reference definitions

Each of the following definitions is written from the **specification's
words** (not from the source) and is compared against the embedded source
functions by the claim theorems.
-/

/-- Spec-side aggregate safety score (spec §4.6 "Aggregate score", claim C4):
0 on a confirmed 15-mer match, otherwise 100 minus 40/20/10 for
`max_contiguous_match` ≥ 14/12/10, minus 30 on an unconfirmed Bloom
positive, minus the weighted seed, palindrome and biological risks, clamped
to [0, 100]. -/
def specAggregateScore (confirmed bloomUnconfirmed : Bool)
    (mc seedRisk palRisk bioRisk : ℕ) : ℚ :=
  if confirmed then 0
  else clamp0100 (100
    - (if 14 ≤ mc then 40 else if 12 ≤ mc then 20 else if 10 ≤ mc then 10 else 0)
    - (if bloomUnconfirmed then 30 else 0)
    - (seedRisk : ℚ) * (3/10) - (palRisk : ℚ) * (15/100)
    - (bioRisk : ℚ) * (1/10))

/-- Spec-side status rule (spec §4.6 "Status", claim C5): Toxic iff a
confirmed 15-mer hit; Seed-Warning iff not Toxic and (a seed match with
`seed_risk ≥ 50`, or the aggregate score < 80); Cleared otherwise. -/
def specStatus (confirmed hasSeedMatch : Bool) (seedRisk : ℕ)
    (aggregate : ℚ) : SafetyStatus :=
  if confirmed then .TOXIC
  else if hasSeedMatch ∧ 50 ≤ seedRisk then .WARNING_SEED
  else if aggregate < 80 then .WARNING_SEED
  else .CLEARED

/-- Spec-side dinucleotide table (spec §4.7 rule 7, claim C8): +2 for each
of AA, AU, UA, UU, TT, AT, TA; the fixed negative values for GC, CG, GG,
CC; 0 otherwise. -/
def specDinucleotideBonus (di : List Char) : ℤ :=
  if di ∈ ([['A','A'], ['A','U'], ['U','A'], ['U','U'], ['T','T'],
            ['A','T'], ['T','A']] : List (List Char)) then 2
  else if di = ['G','C'] then -1
  else if di = ['C','G'] then -2
  else if di = ['G','G'] then -3
  else if di = ['C','C'] then -1
  else 0

/-- Spec-side dinucleotide-endpoint score (claim C8): the spec table summed
over the same three key positions inspected by `evaluateDinucleotides`. -/
def specDinucScore (seq : List Char) : ℤ :=
  (([0, (seq.length : ℤ) - 3, (seq.length : ℤ) - 2] : List ℤ).map (fun pos =>
    if 0 ≤ pos ∧ pos < (seq.length : ℤ) - 1 then
      specDinucleotideBonus (sliceStr seq pos.toNat 2)
    else 0)).sum

/-- Spec-side validation-failure condition (spec §4.1, claim C7): the
sequence is empty, or shorter than 100, or longer than 500,000,000, or some
byte is outside {A, C, G, T, U, N}. -/
def specValidationFails (s : List Char) : Bool :=
  s.isEmpty || s.length < 100 || decide (500000000 < s.length) ||
    s.any (fun c => !(ALLOWED_NUCLEOTIDES.contains c))

/-- Spec-side ordering check (spec §4.9 / P2, claim C2): adjacent pairs are
non-increasing in efficacy, with ties broken by ascending position. -/
def specSortedClaim : List Candidate → Bool
  | a :: b :: t =>
    (decide (b.efficiency ≤ a.efficiency) &&
      (!(a.efficiency == b.efficiency) || decide (a.position ≤ b.position))) &&
    specSortedClaim (b :: t)
  | _ => true

/-!
## Measures and concrete instances used by the claim theorems
-/

/-- Total number of filter decisions recorded in a pipeline state: the four
rejection counters plus the emitted candidates. -/
def stateMeasure (st : PipeState) : ℕ :=
  st.metrics.safety + st.metrics.folding + st.metrics.efficacy +
    st.metrics.dataQuality + st.candidates.length

/-- The same measure on a pipeline result. -/
def resultMeasure (r : PipelineResult) : ℕ :=
  r.metrics.safety + r.metrics.folding + r.metrics.efficacy +
    r.metrics.dataQuality + r.candidates.length

/-- The word-update fold performed by `BloomFilter.add`. -/
def setBits (ws : ℕ → ℕ) (hs : List ℕ) : ℕ → ℕ :=
  hs.foldl (fun w h => fun j =>
    if j = h / 32 then w j ||| (1 <<< (h % 32)) else w j) ws

/-- A 15-character all-G non-target used by several witnesses. -/
def gOnlyNonTarget : List Char := List.replicate 15 'G'

/-- A 22-character A/T-only target whose single scan window passes every
pipeline filter against `gOnlyNonTarget`. -/
def witnessTarget22 : List Char := "AATTACTTAAATATTCACTAAT".toList

/-- A 23-character A/T-only target whose two scan windows both pass every
pipeline filter against `gOnlyNonTarget`, with the earlier window scoring
strictly lower efficacy than the later one. -/
def unsortedTarget23 : List Char := "TTTATTTTTTTTTTTTTTTTTTT".toList

/-- An all-bits-clear bit-set Bloom filter used by the probabilistic-variant
counterexamples (the state of `filter15mer` after indexing a non-target
whose 15-windows all contain N). -/
def emptyBF : BloomFilter := BloomFilter.empty 14400 10

/-- An all-zero counting filter (no valid 7-mers indexed). -/
def emptyCBF : CountingBloomFilter := CountingBloomFilter.empty 5000 3

/-- Candidate for the C4 counterexample: no palindrome ≥ 6, no biological
motifs, seed count 0 against `emptyCBF`. -/
def cand4 : List Char := "ATGGAAGTCTTCGTAAACCTT".toList

/-- A Bloom-based engine whose sample region contains the first 14
characters of `cand4` (so `maxContiguousMatch = 14`) but whose filters are
clear and whose raw sequence is not retained. -/
def bloomEngine4 : BloomBasedSearch :=
  ⟨⟨emptyBF, emptyCBF, 1000, 50, [cand4.take 14], [0]⟩, none⟩

/-- Candidate for the C5 counterexample: contains the 8-palindrome
`AAAATTTT` and the poly-runs AAAA/TTTT, pushing the aggregate below 80. -/
def cand5 : List Char := "GTCAGTAAAATTTTGAGTCAG".toList

/-- A Bloom-based engine whose sample region contains the first 14
characters of `cand5`. -/
def bloomEngine5 : BloomBasedSearch :=
  ⟨⟨emptyBF, emptyCBF, 1000, 50, [cand5.take 14], [0]⟩, none⟩

/-- A Bloom-based engine with clear filters and no samples (the state after
indexing an all-N non-target with no retained raw sequence). -/
def emptyBloomEngine : BloomBasedSearch := ⟨⟨emptyBF, emptyCBF, 1000, 50, [], []⟩, none⟩

/-- A 1,000,001-character sequence whose single invalid byte `X` sits at
index 1,000,000 — just beyond the validator's scan window. -/
def invalidBeyondScan : List Char := List.replicate 1000000 'A' ++ ['X']

/-- A 21-character candidate whose first dinucleotide is TT and whose two
3′-end dinucleotides (AG, GA) are outside the bonus table. -/
def dinucSeq : List Char :=
  "TT".toList ++ List.replicate 16 'A' ++ "AGA".toList

/-- The head candidate produced by the exact pipeline on `witnessTarget22`. -/
def witnessCandidateExact : Candidate :=
  (runPipeline witnessTarget22 (deepTechInit gOnlyNonTarget) 35 .GENERIC).candidates.headI

/-- The head candidate produced by the Bloom pipeline on `witnessTarget22`. -/
def witnessCandidateBloom : Candidate :=
  (runPipelineWithBloom witnessTarget22 emptyBloomEngine 35 .GENERIC).candidates.headI

/-!
## Bit-level lemmas and the Bloom filter false-negative theorem (claim C6)
-/

theorem land_lor_ne_zero (w b m : ℕ) (h : w &&& m ≠ 0) : (w ||| b) &&& m ≠ 0 := by
  intro h0
  apply h
  apply Nat.eq_of_testBit_eq
  intro i
  have hbit := congrArg (fun n => n.testBit i) h0
  simp only [Nat.testBit_land, Nat.testBit_lor, Nat.zero_testBit] at hbit ⊢
  revert hbit
  cases w.testBit i <;> cases b.testBit i <;> cases m.testBit i <;> simp

theorem lor_land_shift_ne_zero (w k : ℕ) : (w ||| (1 <<< k)) &&& (1 <<< k) ≠ 0 := by
  intro h0
  have hbit := congrArg (fun n => n.testBit k) h0
  simp only [Nat.testBit_land, Nat.testBit_lor, Nat.zero_testBit,
    Nat.testBit_shiftLeft, ge_iff_le, le_refl, decide_True, Nat.sub_self,
    Bool.true_and] at hbit
  simp at hbit

theorem setBits_mono (hs : List ℕ) (ws : ℕ → ℕ) (j m : ℕ)
    (h : ws j &&& m ≠ 0) : setBits ws hs j &&& m ≠ 0 := by
  induction hs generalizing ws with
  | nil => exact h
  | cons a t ih =>
    simp only [setBits, List.foldl_cons] at *
    apply ih
    by_cases hj : j = a / 32
    · simp only [hj, if_pos rfl]
      exact land_lor_ne_zero _ _ _ (hj ▸ h)
    · simpa [hj] using h

theorem setBits_sets (hs : List ℕ) (ws : ℕ → ℕ) (h : ℕ) (hh : h ∈ hs) :
    setBits ws hs (h / 32) &&& (1 <<< (h % 32)) ≠ 0 := by
  induction hs generalizing ws with
  | nil => cases hh
  | cons a t ih =>
    simp only [setBits, List.foldl_cons]
    rcases List.mem_cons.mp hh with rfl | hmem
    · apply setBits_mono
      simp only [if_pos rfl]
      exact lor_land_shift_ne_zero _ _
    · exact ih _ hmem

theorem getHashValues_add (bf : BloomFilter) (x y : List Char) :
    (bf.add y).getHashValues x = bf.getHashValues x := rfl

theorem add_words_eq (bf : BloomFilter) (y : List Char) :
    (bf.add y).words = setBits bf.words (bf.getHashValues y) := rfl

theorem contains_eq_all (bf : BloomFilter) (x : List Char) :
    bf.contains x =
      (bf.getHashValues x).all (fun h => bf.words (h / 32) &&& (1 <<< (h % 32)) != 0) :=
  rfl

theorem contains_add_self (bf : BloomFilter) (x : List Char) :
    (bf.add x).contains x = true := by
  rw [contains_eq_all, getHashValues_add, add_words_eq, List.all_eq_true]
  intro h hmem
  simpa [bne_iff_ne] using setBits_sets _ _ _ hmem

theorem contains_add_mono (bf : BloomFilter) (x y : List Char)
    (h : bf.contains x = true) : (bf.add y).contains x = true := by
  rw [contains_eq_all, getHashValues_add, add_words_eq, List.all_eq_true]
  rw [contains_eq_all, List.all_eq_true] at h
  intro a hmem
  have := h a hmem
  simp only [bne_iff_ne, ne_eq, decide_eq_true_eq] at this ⊢
  exact setBits_mono _ _ _ _ this

theorem contains_addMany_mono (ops : List (List Char)) (bf : BloomFilter)
    (x : List Char) (h : bf.contains x = true) :
    (bf.addMany ops).contains x = true := by
  induction ops generalizing bf with
  | nil => exact h
  | cons o t ih => exact ih _ (contains_add_mono _ _ _ h)

/-- **Claim C6.**  For every k-mer `x` and every sequence of `add`
operations on a bit-set Bloom filter that includes `add x`, `contains x`
afterwards returns `true`: the filter has no false negatives. -/
theorem bloomFilter_no_false_negatives (bf : BloomFilter)
    (ops : List (List Char)) (x : List Char) (hx : x ∈ ops) :
    (bf.addMany ops).contains x = true := by
  induction ops generalizing bf with
  | nil => cases hx
  | cons o t ih =>
    rcases List.mem_cons.mp hx with rfl | hmem
    · exact contains_addMany_mono t _ _ (contains_add_self bf x)
    · exact ih _ hmem

/-- Witness for C6 at a concrete filter and insertion sequence. -/
theorem bloomFilter_no_false_negatives_witness :
    ("ACGTACGTACGTACG".toList ∈
      ["TTTTTTTTTTTTTTT".toList, "ACGTACGTACGTACG".toList]) ∧
    ((BloomFilter.empty 1000 7).addMany
      ["TTTTTTTTTTTTTTT".toList, "ACGTACGTACGTACG".toList]).contains
        ("ACGTACGTACGTACG".toList) = true :=
  ⟨by decide, bloomFilter_no_false_negatives _ _ _ (by decide)⟩

/-!
## Pipeline loop invariants
-/

/-- Invariant propagation along a fold over `List.range' i0 n`. -/
theorem foldl_range'_inv {σ : Type} (f : σ → ℕ → σ) (P : ℕ → σ → Prop) :
    ∀ (n i0 : ℕ) (s : σ),
      (∀ i t, i0 ≤ i → i < i0 + n → P i t → P (i + 1) (f t i)) →
      P i0 s → P (i0 + n) ((List.range' i0 n).foldl f s) := by
  intro n
  induction n with
  | zero => intro i0 s _ h0; simpa using h0
  | succ n ih =>
    intro i0 s hstep h0
    rw [List.range'_succ, List.foldl_cons]
    have h1 : P (i0 + 1) (f s i0) :=
      hstep i0 s le_rfl (by omega) h0
    have h2 := ih (i0 + 1) (f s i0)
      (fun i t hi hi2 => hstep i t (by omega) (by omega)) h1
    have : i0 + 1 + n = i0 + (n + 1) := by omega
    rwa [this] at h2

theorem pipeStep_candidates_cases (pest : List Char)
    (check : List Char → CheckSafetyResult) (th : ℚ) (sp : TargetSpecies)
    (st : PipeState) (i : ℕ) :
    (pipeStep pest check th sp st i).candidates = st.candidates ∨
    ∃ c : Candidate, c.position = i ∧ c.sequence = sliceStr pest i 21 ∧
      c.matchLength = (check (sliceStr pest i 21)).matchLength ∧
      (check (sliceStr pest i 21)).isSafe = true ∧
      c.safetyScore = (check (sliceStr pest i 21)).safetyAnalysis.overallSafetyScore ∧
      75 ≤ c.safetyScore ∧ c.foldRisk ≤ 50 ∧ th ≤ c.efficiency ∧
      (pipeStep pest check th sp st i).candidates = st.candidates ++ [c] := by
  unfold pipeStep
  dsimp only
  split
  · left; rfl
  split
  · left; rfl
  rename_i hsafe
  split
  · left; rfl
  rename_i hscore
  split
  · left; rfl
  rename_i hfold
  split
  · left; rfl
  rename_i heff
  right
  refine ⟨_, rfl, rfl, rfl, ?_, rfl, ?_, ?_, ?_, rfl⟩
  · revert hsafe
    cases (check (sliceStr pest i 21)).isSafe <;> simp
  · exact le_of_not_lt hscore
  · exact le_of_not_lt hfold
  · exact le_of_not_lt heff

theorem pipeStep_measure (pest : List Char)
    (check : List Char → CheckSafetyResult) (th : ℚ) (sp : TargetSpecies)
    (st : PipeState) (i : ℕ) :
    stateMeasure (pipeStep pest check th sp st i) = stateMeasure st + 1 := by
  unfold pipeStep stateMeasure
  dsimp only
  split
  · simp; omega
  split
  · simp; omega
  split
  · simp; omega
  split
  · simp; omega
  split
  · simp; omega
  · simp; omega

theorem foldl_pipeStep_measure (pest : List Char)
    (check : List Char → CheckSafetyResult) (th : ℚ) (sp : TargetSpecies)
    (l : List ℕ) (st : PipeState) :
    stateMeasure (l.foldl (pipeStep pest check th sp) st) =
      stateMeasure st + l.length := by
  induction l generalizing st with
  | nil => simp
  | cons a t ih =>
    rw [List.foldl_cons, ih, pipeStep_measure, List.length_cons]
    omega

theorem pipelineCore_measure (pest : List Char)
    (check : List Char → CheckSafetyResult) (th : ℚ) (sp : TargetSpecies)
    (h : 21 ≤ pest.length) :
    resultMeasure (pipelineCore pest check th sp) =
      min (pest.length - 21) 5000 := by
  unfold pipelineCore
  dsimp only
  split
  · rename_i hle
    simp only [resultMeasure, List.length_nil]
    simp only [min_le_iff] at hle
    omega
  · rename_i hpos
    have hm := foldl_pipeStep_measure pest check th sp
      (List.range (min ((pest.length : ℤ) - 21) 5000).toNat) ⟨[], ⟨0, 0, 0, 0⟩⟩
    simp only [List.length_range] at hm
    simp only [resultMeasure, stateMeasure] at hm ⊢
    simp only [List.length_nil] at hm
    rw [hm]
    omega

theorem pipelineCore_short (pest : List Char)
    (check : List Char → CheckSafetyResult) (th : ℚ) (sp : TargetSpecies)
    (h : pest.length ≤ 21) :
    pipelineCore pest check th sp = ⟨[], ⟨0, 0, 0, 0⟩⟩ := by
  unfold pipelineCore
  have hle : min ((pest.length : ℤ) - 21) 5000 ≤ 0 :=
    le_trans (min_le_left _ _) (by omega)
  simp [hle]

/-- **Claim C10.**  When the target length is at most 21 (so the scan limit
`min(length − 21, 5000)` is ≤ 0), both `runPipeline` and
`runPipelineWithBloom` return an empty candidate list and all-zero rejection
counters, via the early return before the scan loop (no error path is
reachable). -/
theorem short_target_empty_result (pest : List Char) (ds : DeepTechSearch)
    (bs : BloomBasedSearch) (th : ℚ) (sp : TargetSpecies)
    (h : pest.length ≤ 21) :
    runPipeline pest ds th sp = ⟨[], ⟨0, 0, 0, 0⟩⟩ ∧
    runPipelineWithBloom pest bs th sp = ⟨[], ⟨0, 0, 0, 0⟩⟩ :=
  ⟨pipelineCore_short _ _ _ _ h, pipelineCore_short _ _ _ _ h⟩

/-- Witness for C10: a 10-character target. -/
theorem short_target_empty_result_witness :
    ("AAAAAAAAAA".toList.length ≤ 21) ∧
    runPipeline "AAAAAAAAAA".toList (deepTechInit gOnlyNonTarget) 70 .GENERIC
      = ⟨[], ⟨0, 0, 0, 0⟩⟩ :=
  ⟨by decide,
   (short_target_empty_result "AAAAAAAAAA".toList (deepTechInit gOnlyNonTarget)
     emptyBloomEngine 70 .GENERIC (by decide)).1⟩

/-- **Claim C3.**  For every target of valid length, threshold, species and
non-target index, the four rejection counters plus the number of emitted
candidates equal `min(target_length − 21, 5000)`, in both pipelines: every
scanned window increments exactly one counter or emits exactly one
candidate.  (Stated for any target with `21 ≤ length`; valid sequences have
`length ≥ 100`.) -/
theorem metrics_partition (pest : List Char) (ds : DeepTechSearch)
    (bs : BloomBasedSearch) (th : ℚ) (sp : TargetSpecies)
    (h : 21 ≤ pest.length) :
    resultMeasure (runPipeline pest ds th sp) = min (pest.length - 21) 5000 ∧
    resultMeasure (runPipelineWithBloom pest bs th sp) =
      min (pest.length - 21) 5000 :=
  ⟨pipelineCore_measure _ _ _ _ h, pipelineCore_measure _ _ _ _ h⟩

/-- Witness for C3: a 23-character target scans 2 windows; the counters and
candidate count sum to 2 in both pipelines. -/
theorem metrics_partition_witness :
    (21 ≤ unsortedTarget23.length) ∧
    resultMeasure (runPipeline unsortedTarget23 (deepTechInit gOnlyNonTarget)
      35 .GENERIC) = min (unsortedTarget23.length - 21) 5000 ∧
    resultMeasure (runPipelineWithBloom unsortedTarget23 emptyBloomEngine
      35 .GENERIC) = min (unsortedTarget23.length - 21) 5000 :=
  ⟨by decide,
   (metrics_partition unsortedTarget23 (deepTechInit gOnlyNonTarget)
     emptyBloomEngine 35 .GENERIC (by decide)).1,
   (metrics_partition unsortedTarget23 (deepTechInit gOnlyNonTarget)
     emptyBloomEngine 35 .GENERIC (by decide)).2⟩

/-!
## Claim C2: candidate ordering
-/

theorem pipeStep_positions (pest : List Char)
    (check : List Char → CheckSafetyResult) (th : ℚ) (sp : TargetSpecies)
    (st : PipeState) (i : ℕ)
    (hp : st.candidates.Pairwise (fun a b => a.position < b.position) ∧
      ∀ c ∈ st.candidates, c.position < i) :
    (pipeStep pest check th sp st i).candidates.Pairwise
        (fun a b => a.position < b.position) ∧
      ∀ c ∈ (pipeStep pest check th sp st i).candidates, c.position < i + 1 := by
  obtain ⟨hpair, hbound⟩ := hp
  rcases pipeStep_candidates_cases pest check th sp st i with heq |
    ⟨c, hpos, _, _, _, _, _, _, _, heq⟩
  · rw [heq]
    exact ⟨hpair, fun c hc => Nat.lt_succ_of_lt (hbound c hc)⟩
  · rw [heq]
    constructor
    · rw [List.pairwise_append]
      refine ⟨hpair, by simp, ?_⟩
      intro a ha b hb
      rw [List.mem_singleton] at hb
      subst hb
      rw [hpos]
      exact hbound a ha
    · intro c' hc'
      rcases List.mem_append.mp hc' with hmem | hmem
      · exact Nat.lt_succ_of_lt (hbound c' hmem)
      · rw [List.mem_singleton] at hmem
        subst hmem
        omega

theorem pipelineCore_position_ascending (pest : List Char)
    (check : List Char → CheckSafetyResult) (th : ℚ) (sp : TargetSpecies) :
    (pipelineCore pest check th sp).candidates.Pairwise
      (fun a b => a.position < b.position) := by
  unfold pipelineCore
  dsimp only
  split
  · simp
  · have hinv := foldl_range'_inv (pipeStep pest check th sp)
      (fun i st => st.candidates.Pairwise (fun a b => a.position < b.position) ∧
        ∀ c ∈ st.candidates, c.position < i)
      (min ((pest.length : ℤ) - 21) 5000).toNat 0 ⟨[], ⟨0, 0, 0, 0⟩⟩
      (fun i t _ _ hp => pipeStep_positions pest check th sp t i hp)
      ⟨List.Pairwise.nil, by simp⟩
    rw [← List.range_eq_range'] at hinv
    exact hinv.1

/-- **Claim C2 (amended).**  The list returned by `runPipeline` /
`runPipelineWithBloom` is ordered by strictly ascending position (the scan
order); neither pipeline sorts by efficacy — the descending-efficacy sort is
applied by the calling UI, outside the core. -/
theorem pipeline_position_ascending (pest : List Char) (ds : DeepTechSearch)
    (bs : BloomBasedSearch) (th : ℚ) (sp : TargetSpecies) :
    (runPipeline pest ds th sp).candidates.Pairwise
        (fun a b => a.position < b.position) ∧
      (runPipelineWithBloom pest bs th sp).candidates.Pairwise
        (fun a b => a.position < b.position) :=
  ⟨pipelineCore_position_ascending _ _ _ _,
   pipelineCore_position_ascending _ _ _ _⟩

/-- **Counterexample to claim C2 as stated.**  On the 23-character target
`unsortedTarget23` against the all-G non-target, `runPipeline` emits two
candidates (positions 0 and 1) with efficacies 37.5 < 39.5: the returned
list is *not* sorted non-increasing by efficacy. -/
theorem pipeline_not_sorted_by_efficacy :
    specSortedClaim (runPipeline unsortedTarget23
      (deepTechInit gOnlyNonTarget) 35 .GENERIC).candidates = false ∧
    (runPipeline unsortedTarget23 (deepTechInit gOnlyNonTarget) 35
      .GENERIC).candidates.map (fun c => (c.position, c.efficiency)) =
      [(0, 75/2), (1, 79/2)] := by
  constructor
  · with_unfolding_all decide
  · with_unfolding_all decide

/-!
## Claim C1: invariants of emitted candidates
-/

theorem maxContigMatch_le (seq ot : List Char) : maxContigMatch seq ot ≤ 14 := by
  unfold maxContigMatch
  split
  · rename_i len hfind
    have hmem := List.mem_of_find?_eq_some hfind
    rw [List.mem_reverse, List.mem_range'_1] at hmem
    omega
  · omega

theorem deepTech_matchLength_le (ds : DeepTechSearch) (s : List Char) :
    (ds.checkSafety s).matchLength ≤ 14 :=
  maxContigMatch_le _ _

theorem bloomMaxContig_le (bs : BloomBasedSearch) (seq : List Char)
    (has : Bool) : bloomMaxContig bs seq false has ≤ 14 := by
  unfold bloomMaxContig
  simp only [Bool.false_eq_true, if_false]
  split
  · omega
  split
  · rename_i len hfind
    have hmem := List.mem_of_find?_eq_some hfind
    rw [List.mem_reverse, List.mem_range'_1] at hmem
    omega
  · omega

theorem bloom_isSafe_eq (bs : BloomBasedSearch) (s : List Char) :
    (bs.checkSafety s).isSafe = !(bs.confirmed15mer (toUpperStr s)) := rfl

theorem bloom_matchLength_eq (bs : BloomBasedSearch) (s : List Char) :
    (bs.checkSafety s).matchLength =
      bloomMaxContig bs (toUpperStr s) (bs.confirmed15mer (toUpperStr s))
        (bs.hasPotential15merMatch (toUpperStr s)) := rfl

theorem bloom_matchLength_le (bs : BloomBasedSearch) (s : List Char)
    (h : (bs.checkSafety s).isSafe = true) :
    (bs.checkSafety s).matchLength ≤ 14 := by
  rw [bloom_isSafe_eq] at h
  rw [bloom_matchLength_eq]
  have hconf : bs.confirmed15mer (toUpperStr s) = false := by
    revert h; cases bs.confirmed15mer (toUpperStr s) <;> simp
  rw [hconf]
  exact bloomMaxContig_le _ _ _

theorem pipelineCore_candidate_invariants (pest : List Char)
    (check : List Char → CheckSafetyResult) (th : ℚ) (sp : TargetSpecies)
    (hcheck : ∀ s, (check s).isSafe = true → (check s).matchLength ≤ 14) :
    ∀ c ∈ (pipelineCore pest check th sp).candidates,
      c.sequence.length = 21 ∧ c.matchLength < 15 ∧ 75 ≤ c.safetyScore ∧
        c.foldRisk ≤ 50 ∧ th ≤ c.efficiency := by
  unfold pipelineCore
  dsimp only
  split
  · simp
  · rename_i hpos
    rw [not_le] at hpos
    set n := (min ((pest.length : ℤ) - 21) 5000).toNat with hn
    have hlen : (n : ℤ) ≤ (pest.length : ℤ) - 21 := by
      rw [hn]
      omega
    have hinv := foldl_range'_inv (pipeStep pest check th sp)
      (fun i st => ∀ c ∈ st.candidates,
        c.sequence.length = 21 ∧ c.matchLength < 15 ∧ 75 ≤ c.safetyScore ∧
          c.foldRisk ≤ 50 ∧ th ≤ c.efficiency)
      n 0 ⟨[], ⟨0, 0, 0, 0⟩⟩ ?_ (by simp)
    · rw [← List.range_eq_range'] at hinv
      exact hinv
    · intro i t hi0 hin hP
      rcases pipeStep_candidates_cases pest check th sp t i with heq |
        ⟨c, hcpos, hcseq, hcml, hcsafe, hcscoreeq, hcscore, hcfold, hceff, heq⟩
      · rw [heq]; exact hP
      · rw [heq]
        intro c' hc'
        rcases List.mem_append.mp hc' with hmem | hmem
        · exact hP c' hmem
        · rw [List.mem_singleton] at hmem
          subst hmem
          refine ⟨?_, ?_, hcscore, hcfold, hceff⟩
          · rw [hcseq]
            unfold sliceStr
            rw [List.length_take, List.length_drop]
            omega
          · rw [hcml]
            have := hcheck (sliceStr pest i 21) hcsafe
            omega

/-- **Claim C1.**  Every candidate in the list returned by `runPipeline`
and by `runPipelineWithBloom` has a 21-character sequence, a reported match
length < 15, a safety score ≥ 75, a fold risk ≤ 50, and an efficacy at
least the configured threshold. -/
theorem output_candidate_invariants (pest : List Char) (ds : DeepTechSearch)
    (bs : BloomBasedSearch) (th : ℚ) (sp : TargetSpecies) :
    (∀ c ∈ (runPipeline pest ds th sp).candidates,
      c.sequence.length = 21 ∧ c.matchLength < 15 ∧ 75 ≤ c.safetyScore ∧
        c.foldRisk ≤ 50 ∧ th ≤ c.efficiency) ∧
    (∀ c ∈ (runPipelineWithBloom pest bs th sp).candidates,
      c.sequence.length = 21 ∧ c.matchLength < 15 ∧ 75 ≤ c.safetyScore ∧
        c.foldRisk ≤ 50 ∧ th ≤ c.efficiency) :=
  ⟨pipelineCore_candidate_invariants _ _ _ _
    (fun s _ => deepTech_matchLength_le ds s),
   pipelineCore_candidate_invariants _ _ _ _
    (fun s hs => bloom_matchLength_le bs s hs)⟩

/-- Witness for C1: both pipelines emit a candidate on `witnessTarget22`,
and the theorem's invariants hold at it. -/
theorem output_candidate_invariants_witness :
    (witnessCandidateExact ∈ (runPipeline witnessTarget22
        (deepTechInit gOnlyNonTarget) 35 .GENERIC).candidates ∧
      witnessCandidateExact.sequence.length = 21 ∧
      witnessCandidateExact.matchLength < 15 ∧
      75 ≤ witnessCandidateExact.safetyScore ∧
      witnessCandidateExact.foldRisk ≤ 50 ∧
      35 ≤ witnessCandidateExact.efficiency) ∧
    (witnessCandidateBloom ∈ (runPipelineWithBloom witnessTarget22
        emptyBloomEngine 35 .GENERIC).candidates ∧
      witnessCandidateBloom.sequence.length = 21 ∧
      witnessCandidateBloom.matchLength < 15 ∧
      75 ≤ witnessCandidateBloom.safetyScore ∧
      witnessCandidateBloom.foldRisk ≤ 50 ∧
      35 ≤ witnessCandidateBloom.efficiency) := by
  have hmem1 : witnessCandidateExact ∈ (runPipeline witnessTarget22
      (deepTechInit gOnlyNonTarget) 35 .GENERIC).candidates := by
    with_unfolding_all decide
  have hmem2 : witnessCandidateBloom ∈ (runPipelineWithBloom witnessTarget22
      emptyBloomEngine 35 .GENERIC).candidates := by
    with_unfolding_all decide
  exact ⟨⟨hmem1, (output_candidate_invariants witnessTarget22
      (deepTechInit gOnlyNonTarget) emptyBloomEngine 35 .GENERIC).1
      witnessCandidateExact hmem1⟩,
    ⟨hmem2, (output_candidate_invariants witnessTarget22
      (deepTechInit gOnlyNonTarget) emptyBloomEngine 35 .GENERIC).2
      witnessCandidateBloom hmem2⟩⟩

/-!
## Claims C4 and C5: aggregate-score formula and status rule
-/

theorem clamp0100_nonpos (x : ℚ) (h : x ≤ 0) : clamp0100 x = 0 := by
  unfold clamp0100
  rw [min_eq_right (le_trans h (by norm_num)), max_eq_left h]

theorem exactAggregate_eq_spec (h : Bool) (mc sr pr br : ℕ) :
    exactAggregate h mc sr pr br = specAggregateScore h false mc sr pr br := by
  unfold exactAggregate specAggregateScore homologyDeduction
  cases h
  · simp only [Bool.false_eq_true, if_false]
    apply congrArg
    ring
  · simp only [if_true]
    exact clamp0100_nonpos 0 le_rfl

theorem bloomAggregate_confirmed (has : Bool) (mc sr pr br : ℕ) :
    bloomAggregate true has mc sr pr br = 0 := by
  unfold bloomAggregate
  dsimp only
  apply clamp0100_nonpos
  have h1 : (0 : ℚ) ≤ (sr : ℚ) * (3/10) := by positivity
  have h2 : (0 : ℚ) ≤ (pr : ℚ) * (15/100) := by positivity
  have h3 : (0 : ℚ) ≤ (br : ℚ) * (1/10) := by positivity
  simp only [eq_self_iff_true, if_true, Bool.true_eq_false, and_false,
    if_false]
  split <;> linarith

theorem exact_score_eq (c ot : List Char) (m15 m7 : List (List Char)) :
    (performSafetyAnalysis c ot m15 m7).overallSafetyScore =
      specAggregateScore (performSafetyAnalysis c ot m15 m7).has15merMatch
        false (performSafetyAnalysis c ot m15 m7).maxContiguousMatch
        (performSafetyAnalysis c ot m15 m7).seedRiskScore
        (performSafetyAnalysis c ot m15 m7).palindromeRiskScore
        (performSafetyAnalysis c ot m15 m7).biologicalRiskScore :=
  exactAggregate_eq_spec _ _ _ _ _

theorem bloom_score_eq (bs : BloomBasedSearch) (c : List Char) :
    (bs.checkSafety c).safetyAnalysis.overallSafetyScore =
      bloomAggregate (bs.checkSafety c).safetyAnalysis.has15merMatch
        (bs.hasPotential15merMatch (toUpperStr c))
        (bs.checkSafety c).safetyAnalysis.maxContiguousMatch
        (bs.checkSafety c).safetyAnalysis.seedRiskScore
        (bs.checkSafety c).safetyAnalysis.palindromeRiskScore
        (bs.checkSafety c).safetyAnalysis.biologicalRiskScore := rfl

/-- **Counterexample to claim C4 as stated.**  On the probabilistic engine
`bloomEngine4` (clear filters, one sample holding the first 14 characters of
`cand4`, no retained raw sequence), the analyzer reports
`max_contiguous_match = 14` with no Bloom positive and zero seed,
palindrome and biological risks; the spec formula demands
`100 − 40 = 60`, but the code computes `100 − 20 = 80`. -/
theorem bloom_score_counterexample :
    ((bloomEngine4.checkSafety cand4).safetyAnalysis.overallSafetyScore ≠
      specAggregateScore
        (bloomEngine4.checkSafety cand4).safetyAnalysis.has15merMatch
        ((bloomEngine4.hasPotential15merMatch (toUpperStr cand4)) &&
          !(bloomEngine4.checkSafety cand4).safetyAnalysis.has15merMatch)
        (bloomEngine4.checkSafety cand4).safetyAnalysis.maxContiguousMatch
        (bloomEngine4.checkSafety cand4).safetyAnalysis.seedRiskScore
        (bloomEngine4.checkSafety cand4).safetyAnalysis.palindromeRiskScore
        (bloomEngine4.checkSafety cand4).safetyAnalysis.biologicalRiskScore) ∧
    (bloomEngine4.checkSafety cand4).safetyAnalysis.overallSafetyScore = 80 ∧
    (bloomEngine4.checkSafety cand4).safetyAnalysis.maxContiguousMatch = 14 ∧
    (bloomEngine4.checkSafety cand4).safetyAnalysis.has15merMatch = false ∧
    bloomEngine4.hasPotential15merMatch (toUpperStr cand4) = false ∧
    (bloomEngine4.checkSafety cand4).safetyAnalysis.seedRiskScore = 0 ∧
    (bloomEngine4.checkSafety cand4).safetyAnalysis.palindromeRiskScore = 0 ∧
    (bloomEngine4.checkSafety cand4).safetyAnalysis.biologicalRiskScore = 0 ∧
    specAggregateScore false false 14 0 0 0 = 60 := by
  refine ⟨?_, ?_, ?_, ?_, ?_, ?_, ?_, ?_, ?_⟩ <;> with_unfolding_all decide

/-- **Claim C4 (amended).**  The exact analyzer's aggregate score follows
the spec formula exactly, with no Bloom deduction.  The probabilistic
analyzer follows `bloomAggregate` instead: on a confirmed match the score is
0; otherwise 100, minus 30 on an unconfirmed Bloom positive, minus 20 when
`max_contiguous_match ≥ 12` (else 10 when ≥ 10) — there is **no** −40 tier
for matches ≥ 14 — minus seed_risk × 0.30, palindrome_risk × 0.15 and
biological_risk × 0.10, clamped to [0, 100]. -/
theorem safety_score_formula (c ot : List Char) (m15 m7 : List (List Char))
    (bs : BloomBasedSearch) (c' : List Char) (has : Bool)
    (mc sr pr br : ℕ) :
    ((performSafetyAnalysis c ot m15 m7).overallSafetyScore =
      specAggregateScore (performSafetyAnalysis c ot m15 m7).has15merMatch
        false (performSafetyAnalysis c ot m15 m7).maxContiguousMatch
        (performSafetyAnalysis c ot m15 m7).seedRiskScore
        (performSafetyAnalysis c ot m15 m7).palindromeRiskScore
        (performSafetyAnalysis c ot m15 m7).biologicalRiskScore) ∧
    ((bs.checkSafety c').safetyAnalysis.overallSafetyScore =
      bloomAggregate (bs.checkSafety c').safetyAnalysis.has15merMatch
        (bs.hasPotential15merMatch (toUpperStr c'))
        (bs.checkSafety c').safetyAnalysis.maxContiguousMatch
        (bs.checkSafety c').safetyAnalysis.seedRiskScore
        (bs.checkSafety c').safetyAnalysis.palindromeRiskScore
        (bs.checkSafety c').safetyAnalysis.biologicalRiskScore) ∧
    bloomAggregate true has mc sr pr br = 0 :=
  ⟨exact_score_eq c ot m15 m7, bloom_score_eq bs c',
   bloomAggregate_confirmed has mc sr pr br⟩

theorem exactStatus_eq_spec (h15 hseed : Bool) (sr : ℕ) (score : ℚ) :
    exactStatus h15 hseed sr score = specStatus h15 hseed sr score := by
  unfold exactStatus specStatus
  cases h15
  · cases hseed <;> by_cases hsr : 50 ≤ sr <;> simp [hsr]
  · rfl

theorem exactStatus_toxic_iff (h15 hseed : Bool) (sr : ℕ) (score : ℚ) :
    exactStatus h15 hseed sr score = .TOXIC ↔ h15 = true := by
  unfold exactStatus
  cases h15
  · simp only [Bool.false_eq_true, if_false, iff_false]
    split
    · simp
    split <;> simp
  · simp

theorem bloomStatusOf_toxic_iff (conf hseed : Bool) (sr : ℕ) :
    bloomStatusOf conf hseed sr = .TOXIC ↔ conf = true := by
  unfold bloomStatusOf
  cases conf
  · simp only [Bool.false_eq_true, if_false, iff_false]
    split <;> simp
  · simp

theorem exact_status_eq (c ot : List Char) (m15 m7 : List (List Char)) :
    (performSafetyAnalysis c ot m15 m7).status =
      specStatus (performSafetyAnalysis c ot m15 m7).has15merMatch
        (performSafetyAnalysis c ot m15 m7).hasSeedMatch
        (performSafetyAnalysis c ot m15 m7).seedRiskScore
        (performSafetyAnalysis c ot m15 m7).overallSafetyScore :=
  exactStatus_eq_spec _ _ _ _

theorem exact_isSafe_iff (c ot : List Char) (m15 m7 : List (List Char)) :
    (performSafetyAnalysis c ot m15 m7).isSafe = true ↔
      (performSafetyAnalysis c ot m15 m7).status ≠ .TOXIC := by
  have hst : (performSafetyAnalysis c ot m15 m7).status =
      exactStatus (exactHas15mer (toUpperStr c) m15)
        (performSafetyAnalysis c ot m15 m7).hasSeedMatch
        (performSafetyAnalysis c ot m15 m7).seedRiskScore
        (performSafetyAnalysis c ot m15 m7).overallSafetyScore := rfl
  have hsafe : (performSafetyAnalysis c ot m15 m7).isSafe =
      !(exactHas15mer (toUpperStr c) m15) := rfl
  rw [hst, hsafe, ne_eq, exactStatus_toxic_iff]
  cases exactHas15mer (toUpperStr c) m15 <;> simp

theorem bloom_status_eq (bs : BloomBasedSearch) (c : List Char) :
    (bs.checkSafety c).safetyAnalysis.status =
      bloomStatusOf (bs.checkSafety c).safetyAnalysis.has15merMatch
        (bs.checkSafety c).safetyAnalysis.hasSeedMatch
        (bs.checkSafety c).safetyAnalysis.seedRiskScore := by
  have : (bs.checkSafety c).safetyAnalysis.hasSeedMatch =
      decide (0 < bs.seedCountOf (toUpperStr c)) := rfl
  rw [this]
  rfl

theorem bloom_isSafe_iff (bs : BloomBasedSearch) (c : List Char) :
    (bs.checkSafety c).safetyAnalysis.isSafe = true ↔
      (bs.checkSafety c).safetyAnalysis.status ≠ .TOXIC := by
  have hst : (bs.checkSafety c).safetyAnalysis.status =
      bloomStatusOf (bs.confirmed15mer (toUpperStr c))
        (0 < bs.seedCountOf (toUpperStr c))
        (bloomSeedRisk (bs.seedCountOf (toUpperStr c))) := rfl
  have hsafe : (bs.checkSafety c).safetyAnalysis.isSafe =
      !(bs.confirmed15mer (toUpperStr c)) := rfl
  rw [hst, hsafe, ne_eq, bloomStatusOf_toxic_iff]
  cases bs.confirmed15mer (toUpperStr c) <;> simp

/-- **Counterexample to claim C5 as stated.**  On the probabilistic engine
`bloomEngine5` (clear filters, one sample holding the first 14 characters of
`cand5`), the aggregate score is 68.5 < 80 with no confirmed hit and no
seed match, so the spec rule demands Seed-Warning; the code reports
Cleared, because `BloomBasedSearch.checkSafety` has no `aggregate < 80`
branch. -/
theorem bloom_status_counterexample :
    ((bloomEngine5.checkSafety cand5).safetyAnalysis.status ≠
      specStatus (bloomEngine5.checkSafety cand5).safetyAnalysis.has15merMatch
        (bloomEngine5.checkSafety cand5).safetyAnalysis.hasSeedMatch
        (bloomEngine5.checkSafety cand5).safetyAnalysis.seedRiskScore
        (bloomEngine5.checkSafety cand5).safetyAnalysis.overallSafetyScore) ∧
    (bloomEngine5.checkSafety cand5).safetyAnalysis.status = .CLEARED ∧
    (bloomEngine5.checkSafety cand5).safetyAnalysis.overallSafetyScore = 137/2 ∧
    (bloomEngine5.checkSafety cand5).safetyAnalysis.has15merMatch = false ∧
    (bloomEngine5.checkSafety cand5).safetyAnalysis.hasSeedMatch = false ∧
    specStatus false false 0 (137/2) = .WARNING_SEED := by
  refine ⟨?_, ?_, ?_, ?_, ?_, ?_⟩ <;> with_unfolding_all decide

/-- **Claim C5 (amended).**  The exact analyzer's status follows the spec
rule exactly (Toxic on a 15-mer hit; Seed-Warning when a seed match has
risk ≥ 50 or the aggregate is < 80; Cleared otherwise), and `is_safe` holds
iff the status is not Toxic.  The probabilistic analyzer's status follows
`bloomStatusOf` instead: it has **no** `aggregate < 80` branch (Seed-Warning
only on a seed match with risk ≥ 50); `is_safe` iff not Toxic also holds
there. -/
theorem safety_status_rule (c ot : List Char) (m15 m7 : List (List Char))
    (bs : BloomBasedSearch) (c' : List Char) :
    ((performSafetyAnalysis c ot m15 m7).status =
      specStatus (performSafetyAnalysis c ot m15 m7).has15merMatch
        (performSafetyAnalysis c ot m15 m7).hasSeedMatch
        (performSafetyAnalysis c ot m15 m7).seedRiskScore
        (performSafetyAnalysis c ot m15 m7).overallSafetyScore) ∧
    ((performSafetyAnalysis c ot m15 m7).isSafe = true ↔
      (performSafetyAnalysis c ot m15 m7).status ≠ .TOXIC) ∧
    ((bs.checkSafety c').safetyAnalysis.status =
      bloomStatusOf (bs.checkSafety c').safetyAnalysis.has15merMatch
        (bs.checkSafety c').safetyAnalysis.hasSeedMatch
        (bs.checkSafety c').safetyAnalysis.seedRiskScore) ∧
    ((bs.checkSafety c').safetyAnalysis.isSafe = true ↔
      (bs.checkSafety c').safetyAnalysis.status ≠ .TOXIC) :=
  ⟨exact_status_eq c ot m15 m7, exact_isSafe_iff c ot m15 m7,
   bloom_status_eq bs c', bloom_isSafe_iff bs c'⟩

/-!
## Claim C7: sequence validation
-/

theorem gp_size_cond_iff (n : ℕ) :
    ((500 : ℚ) < (n : ℚ) / (1024 * 1024)) ↔ 524288000 < n := by
  rw [lt_div_iff₀ (by norm_num)]
  constructor
  · intro h
    by_contra hn
    push_neg at hn
    have : (n : ℚ) ≤ 524288000 := by exact_mod_cast hn
    linarith
  · intro h
    have : (524288000 : ℚ) < (n : ℚ) := by exact_mod_cast h
    linarith

/-- **Counterexample to claim C7 as stated.**  `invalidBeyondScan` contains
the invalid byte X (at index 1,000,000), so by the claim validation must
fail; but the `genomeProcessor.ts` validator only scans the first 1,000,000
characters and accepts it. -/
theorem validation_counterexample :
    gpValidateSequence invalidBeyondScan = true ∧
    specValidationFails invalidBeyondScan = true := by
  have hlen : invalidBeyondScan.length = 1000001 := by
    unfold invalidBeyondScan
    rw [List.length_append, List.length_replicate]
    simp
  have htake : invalidBeyondScan.take 1000000 = List.replicate 1000000 'A' := by
    unfold invalidBeyondScan
    rw [List.take_append_of_le_length (by rw [List.length_replicate]),
      List.take_replicate]
    norm_num
  have h1 : ¬(invalidBeyondScan.isEmpty = true) := by
    rw [List.isEmpty_iff]
    intro hempty
    rw [hempty] at hlen
    simp at hlen
  have h2 : ¬((500 : ℚ) < (invalidBeyondScan.length : ℚ) / (1024 * 1024)) := by
    rw [hlen, gp_size_cond_iff]
    norm_num
  have h3 : ¬(invalidBeyondScan.length < 100) := by
    rw [hlen]; norm_num
  have h4 : ¬((invalidBeyondScan.take 1000000).any
      (fun c => !(ALLOWED_NUCLEOTIDES.contains c)) = true) := by
    rw [htake]
    intro hcontra
    rw [List.any_eq_true] at hcontra
    obtain ⟨c, hc, hp⟩ := hcontra
    rw [List.eq_of_mem_replicate hc] at hp
    simp [ALLOWED_NUCLEOTIDES] at hp
  constructor
  · unfold gpValidateSequence
    rw [if_neg h1, if_neg h2, if_neg h3, if_neg h4]
  · unfold specValidationFails
    have hX : 'X' ∈ invalidBeyondScan := by
      unfold invalidBeyondScan
      exact List.mem_append_right _ (List.mem_singleton.mpr rfl)
    have hany : invalidBeyondScan.any
        (fun c => !(ALLOWED_NUCLEOTIDES.contains c)) = true :=
      List.any_eq_true.mpr ⟨'X', hX, by decide⟩
    rw [hany]
    simp

/-- **Claim C7 (amended).**  The `genomeProcessor.ts` validator fails
exactly when the sequence is empty, longer than 524,288,000 (500 MiB, not
500,000,000), shorter than 100, or has an invalid byte among its **first
1,000,000** characters.  The `engine.ts` validator fails exactly when the
sequence is empty, longer than 500,000,000, shorter than 100, or has any
byte whose upper-cased form is outside {A, C, G, T, U, N}. -/
theorem validation_rules (s : List Char) :
    (gpValidateSequence s = false ↔
      (s = [] ∨ 524288000 < s.length ∨ s.length < 100 ∨
        ∃ c ∈ s.take 1000000, ALLOWED_NUCLEOTIDES.contains c = false)) ∧
    (engineValidateSequence s = false ↔
      (s = [] ∨ 500000000 < s.length ∨ s.length < 100 ∨
        ∃ c ∈ s, ALLOWED_NUCLEOTIDES.contains c.toUpper = false)) := by
  constructor
  · unfold gpValidateSequence
    split
    · rename_i h
      rw [List.isEmpty_iff] at h
      simp [h]
    split
    · rename_i h1 h2
      have h2' : 524288000 < s.length := (gp_size_cond_iff _).mp h2
      simp [h2']
    split
    · rename_i h1 h2 h3
      simp [h3]
    split
    · rename_i h1 h2 h3 h4
      rw [List.any_eq_true] at h4
      obtain ⟨c, hc, hval⟩ := h4
      rw [Bool.not_eq_eq_eq_not, Bool.not_true] at hval
      simp only [eq_self_iff_true, true_iff]
      exact Or.inr (Or.inr (Or.inr ⟨c, hc, hval⟩))
    · rename_i h1 h2 h3 h4
      rw [List.isEmpty_iff] at h1
      rw [List.any_eq_true] at h4
      push_neg at h4
      have h2' : ¬524288000 < s.length :=
        fun hgt => h2 ((gp_size_cond_iff _).mpr hgt)
      simp only [Bool.true_eq_false, false_iff]
      push_neg
      refine ⟨h1, not_lt.mp h2', not_lt.mp h3, ?_⟩
      intro c hc
      intro hcontra
      exact h4 c hc (by rw [hcontra]; rfl)
  · unfold engineValidateSequence
    split
    · rename_i h
      rw [List.isEmpty_iff] at h
      simp [h]
    split
    · rename_i h1 h2
      simp [h2]
    split
    · rename_i h1 h2 h3
      simp [h3]
    split
    · rename_i h1 h2 h3 h4
      rw [List.any_eq_true] at h4
      obtain ⟨c, hc, hval⟩ := h4
      rw [Bool.not_eq_eq_eq_not, Bool.not_true] at hval
      simp only [eq_self_iff_true, true_iff]
      exact Or.inr (Or.inr (Or.inr ⟨c, hc, hval⟩))
    · rename_i h1 h2 h3 h4
      rw [List.isEmpty_iff] at h1
      rw [List.any_eq_true] at h4
      push_neg at h4
      simp only [Bool.true_eq_false, false_iff]
      push_neg
      refine ⟨h1, not_lt.mp h2, not_lt.mp h3, ?_⟩
      intro c hc
      intro hcontra
      exact h4 c hc (by rw [hcontra]; rfl)

/-!
## Claim C8: dinucleotide endpoint rule
-/

/-- **Counterexample to claim C8 as stated.**  The first dinucleotide of
`dinucSeq` is TT — in the claim's +2 set — yet `DINUCLEOTIDE_BONUSES`
assigns TT (and UU) the value 1, so the evaluator returns 1 where the
claim demands 2. -/
theorem dinucleotide_counterexample :
    evaluateDinucleotides dinucSeq ≠ specDinucScore dinucSeq ∧
    evaluateDinucleotides dinucSeq = 1 ∧
    specDinucScore dinucSeq = 2 ∧
    dinucleotideBonus ['T','T'] = 1 ∧
    dinucleotideBonus ['U','U'] = 1 := by
  refine ⟨?_, ?_, ?_, ?_, ?_⟩ <;> decide

/-- **Claim C8 (amended).**  Over the three inspected dinucleotides (the
first, and those at positions 19–20 and 20–21 of a 21-mer), each
contributes +2 when it is one of AA, AU, UA, AT, TA, **+1** when it is TT
or UU, and the fixed negative value for GC (−1), CG (−2), GG (−3), CC
(−1); `evaluateDinucleotides` sums these contributions over exactly those
key positions. -/
theorem dinucleotide_endpoint_rule (seq : List Char) :
    (evaluateDinucleotides seq =
      (([0, (seq.length : ℤ) - 3, (seq.length : ℤ) - 2] : List ℤ).map
        (fun pos =>
          if 0 ≤ pos ∧ pos < (seq.length : ℤ) - 1 then
            dinucleotideBonus (sliceStr seq pos.toNat 2)
          else 0)).sum) ∧
    dinucleotideBonus ['A','A'] = 2 ∧ dinucleotideBonus ['A','U'] = 2 ∧
    dinucleotideBonus ['U','A'] = 2 ∧ dinucleotideBonus ['A','T'] = 2 ∧
    dinucleotideBonus ['T','A'] = 2 ∧ dinucleotideBonus ['T','T'] = 1 ∧
    dinucleotideBonus ['U','U'] = 1 ∧ dinucleotideBonus ['G','C'] = -1 ∧
    dinucleotideBonus ['C','G'] = -2 ∧ dinucleotideBonus ['G','G'] = -3 ∧
    dinucleotideBonus ['C','C'] = -1 := by
  refine ⟨rfl, ?_, ?_, ?_, ?_, ?_, ?_, ?_, ?_, ?_, ?_, ?_⟩ <;> decide

/-!
## Claim C9: validity filtering in the indexers
-/

theorem chunkInsertions_valid (chunk : List Char) (eff k : ℕ) :
    (chunkInsertions chunk eff k).all isValidKmer = true := by
  rw [List.all_eq_true]
  intro kmer hmem
  unfold chunkInsertions at hmem
  rw [List.mem_filterMap] at hmem
  obtain ⟨i, _, hi⟩ := hmem
  dsimp only at hi
  split at hi
  · rename_i hvalid
    cases hi
    exact hvalid
  · cases hi

/-- **Counterexample to claim C9 as stated.**  The exact indexer
(`DeepTechSearch`'s constructor) applies no validity filter: on an all-N
non-target it inserts the all-N 15-mer, which is invalid. -/
theorem deepTech_indexes_invalid_kmer :
    (List.replicate 15 'N' ∈
      (deepTechInit (List.replicate 15 'N')).offTarget15mers) ∧
    isValidKmer (List.replicate 15 'N') = false := by
  refine ⟨?_, ?_⟩ <;> decide

/-- **Claim C9 (amended).**  The probabilistic indexers — `buildGenomeIndex`
in `genomeProcessor.ts` and `BloomBasedSearch.buildIndex` in `engine.ts` —
never insert a k-mer containing a byte outside {A, C, G, T, U} into the
15-mer or 7-mer filter (every insertion is guarded by `isValidKmer`); the
exact `DeepTechSearch` indexer, by contrast, indexes every window with no
validity filter. -/
theorem probabilistic_indexers_skip_invalid (genome : List Char)
    (chunkSize overlapSize : ℕ) :
    (buildGenomeIndexTrace genome chunkSize overlapSize).1.all isValidKmer
        = true ∧
    (buildGenomeIndexTrace genome chunkSize overlapSize).2.all isValidKmer
        = true ∧
    (bloomBuildIndexTrace genome).1.all isValidKmer = true ∧
    (bloomBuildIndexTrace genome).2.all isValidKmer = true := by
  refine ⟨?_, ?_, ?_, ?_⟩ <;>
  · rw [List.all_eq_true]
    intro kmer hmem
    simp only [buildGenomeIndexTrace, bloomBuildIndexTrace] at hmem
    rw [List.mem_flatMap] at hmem
    obtain ⟨p, _, hp⟩ := hmem
    exact List.all_eq_true.mp (chunkInsertions_valid _ _ _) kmer hp

end HelixZero
